import Mathlib

/-!
Installation database-migration CLI (cmd/cloud/installation_operation_db_migration.go)

A shallow embedding of the five `db-migration` sub-commands (request, list, get,
commit, rollback), of the flag declarations made by `init`, and of
`defaultDBMigrationOperationTableData`.

Conventions of the embedding:

* A Go `(value, error)` result is a pair whose second component is `none` for a
  nil error; a Go pointer that may be nil is an `Option`, also as the element of a
  slice of pointers.
* A command body (`RunE`) is a pure function from the parsed flag set to an
  `Outcome`: the ordered list of observable effects (client calls, print calls),
  the error returned, and whether the run ended in a panic (a nil pointer
  dereference) instead of returning.
* How the caller reports a returned error (error line, usage text) is not part of
  an `Outcome`.
* Everything the source file uses but does not define (the HTTP client, the
  printers, the paging and table-output helpers, the time formatter) is a field
  of `Env`, so every theorem holds for all behaviours of those collaborators.
-/

namespace MattermostCloud

/-! ## Errors (github.com/pkg/errors) -/

/-- A Go error value: a plain message, `errors.Wrap cause message`, or the error
pflag reports for a value that does not parse as the flag's type (its text quotes
value and flag name and appends the parser's own error). -/
inductive GoError where
  | new (message : String)
  | wrap (cause : GoError) (message : String)
  | invalidArgument (value flagName : String)
  deriving DecidableEq, Repr

/-! ## Data model (package model) -/

/-- Struct `model.MultiTenantDBMigrationData` as used by the request command. -/
structure MultiTenantDBMigrationData where
  DatabaseID : String
  deriving DecidableEq, Repr

/-- Struct `model.InstallationDBMigrationRequest` with the three fields the request
command fills; `DestinationMultiTenant` is a pointer in the source. -/
structure InstallationDBMigrationRequest where
  InstallationID : String
  DestinationDatabase : String
  DestinationMultiTenant : Option MultiTenantDBMigrationData
  deriving DecidableEq, Repr

/-- Modelled from the spec: the paging value `ListOperations(..., page, perPage)`;
the struct `model.Paging` is declared outside the sources in scope and the list
command only passes it through. -/
structure Paging where
  Page : Int
  PerPage : Int
  deriving DecidableEq, Repr

/-- Struct `model.GetInstallationDBMigrationOperationsRequest` as filled by the list
command. -/
structure GetInstallationDBMigrationOperationsRequest where
  Paging : Paging
  InstallationID : String
  State : String
  deriving DecidableEq, Repr

/-- Modelled from the spec: the struct `model.InstallationDBMigrationOperation` is
declared outside the sources in scope. `ID`, `InstallationID`, `State` (a string
type, read through `string(migration.State)`) and `RequestAt` (int64 milliseconds)
are the fields the source reads; the remaining fields follow section 3 of the
specification (destination descriptor, failure reason, version, lock owner and
lease). -/
structure InstallationDBMigrationOperation where
  ID : String
  InstallationID : String
  RequestAt : Int
  State : String
  DestinationDatabase : String
  DestinationMultiTenant : Option MultiTenantDBMigrationData
  FailureReason : Option String
  Version : Nat
  LockAcquiredBy : Option String
  LockAcquiredAt : Int
  deriving DecidableEq, Repr

/-! ## Flags (spf13/pflag and spf13/cobra, as far as the commands use them) -/

/-- Value of a flag: `Flags().String` declares a string flag, `Flags().Bool` a
boolean one. -/
inductive FlagValue where
  | string (s : String)
  | bool (b : Bool)
  deriving DecidableEq, Repr

/-- One declared flag: its name, its current value (the default until set on the
command line), whether the command line set it, and whether `MarkFlagRequired`
was applied to it. -/
structure Flag where
  Name : String
  Value : FlagValue
  Changed : Bool
  Required : Bool
  deriving DecidableEq, Repr

/-- A flag set, in declaration order. -/
abbrev FlagSet := List Flag

/-- Lookup of a flag by name: the first declaration wins. -/
def FlagSet.Lookup : FlagSet → String → Option Flag
  | [], _ => none
  | f :: rest, name => if f.Name = name then some f else FlagSet.Lookup rest name

/-- Declaration `Flags().String(name, value, usage)`. -/
def FlagSet.StringFlag (fs : FlagSet) (name value : String) : FlagSet :=
  fs ++ [{ Name := name, Value := FlagValue.string value, Changed := false, Required := false }]

/-- Call `MarkFlagRequired(name)`: annotates the named flag as required. -/
def FlagSet.MarkFlagRequired : FlagSet → String → FlagSet
  | [], _ => []
  | f :: rest, name =>
    if f.Name = name then { f with Required := true } :: rest
    else f :: FlagSet.MarkFlagRequired rest name

/-- Merge `AddFlagSet`: flags of `extra` are added unless a flag of that name is
already present (a command's own flags shadow inherited persistent flags). -/
def FlagSet.AddFlagSet (fs : FlagSet) : FlagSet → FlagSet
  | [] => fs
  | f :: rest =>
    match FlagSet.Lookup fs f.Name with
    | some _ => FlagSet.AddFlagSet fs rest
    | none => FlagSet.AddFlagSet (fs ++ [f]) rest

/-- Call `GetString(name)` with its error discarded, as the commands do: the value
of a string flag, and the empty string when the flag is undeclared or not a
string flag. -/
def FlagSet.GetString (fs : FlagSet) (name : String) : String :=
  match FlagSet.Lookup fs name with
  | some { Value := FlagValue.string s, .. } => s
  | _ => ""

/-- Call `GetBool(name)` with its error discarded: the value of a boolean flag, and
`false` when the flag is undeclared or not a boolean flag. -/
def FlagSet.GetBool (fs : FlagSet) (name : String) : Bool :=
  match FlagSet.Lookup fs name with
  | some { Value := FlagValue.bool b, .. } => b
  | _ => false

/-- Call `GetBool(name)` with its error kept: pflag reports a flag that is not
declared and a flag that is not of boolean type. -/
def FlagSet.GetBoolChecked (fs : FlagSet) (name : String) : Except GoError Bool :=
  match FlagSet.Lookup fs name with
  | some { Value := FlagValue.bool b, .. } => Except.ok b
  | some { Value := FlagValue.string _, .. } =>
    Except.error (GoError.new "trying to get bool value of flag of type string")
  | none => Except.error (GoError.new ("flag accessed but not defined: " ++ name))

/-- Cobra's `InitDefaultHelpFlag`, run on the merged flag set before parsing: a
boolean flag `help` with default false is added unless a flag of that name is
already declared. -/
def FlagSet.InitDefaultHelpFlag (fs : FlagSet) : FlagSet :=
  match FlagSet.Lookup fs "help" with
  | some _ => fs
  | none =>
    fs ++ [{ Name := "help", Value := FlagValue.bool false, Changed := false,
             Required := false }]

/-- Function `strconv.ParseBool`, used by pflag for the value of a boolean flag. -/
def parseBool (s : String) : Option Bool :=
  if s = "1" ∨ s = "t" ∨ s = "T" ∨ s = "TRUE" ∨ s = "true" ∨ s = "True" then some true
  else if s = "0" ∨ s = "f" ∨ s = "F" ∨ s = "FALSE" ∨ s = "false" ∨ s = "False" then some false
  else none

/-- Setting one flag from the command line (`--name=value`): the value is parsed
according to the flag's type and the flag is marked as changed. Unknown flags and
unparsable boolean values are errors. -/
def FlagSet.Set : FlagSet → String → String → Except GoError FlagSet
  | [], name, _ => Except.error (GoError.new ("unknown flag: --" ++ name))
  | f :: rest, name, value =>
    if f.Name = name then
      match f.Value with
      | FlagValue.string _ =>
        Except.ok ({ f with Value := FlagValue.string value, Changed := true } :: rest)
      | FlagValue.bool _ =>
        match parseBool value with
        | some b => Except.ok ({ f with Value := FlagValue.bool b, Changed := true } :: rest)
        | none => Except.error (GoError.invalidArgument value name)
    else
      match FlagSet.Set rest name value with
      | Except.ok rest1 => Except.ok (f :: rest1)
      | Except.error e => Except.error e

/-- Parsing of a command line given as `(name, value)` pairs, left to right. -/
def FlagSet.ParseFlags : FlagSet → List (String × String) → Except GoError FlagSet
  | fs, [] => Except.ok fs
  | fs, (name, value) :: rest =>
    match FlagSet.Set fs name value with
    | Except.ok fs1 => FlagSet.ParseFlags fs1 rest
    | Except.error e => Except.error e

/-- Names of the required flags the command line did not set. -/
def FlagSet.missingRequired (fs : FlagSet) : List String :=
  (fs.filter (fun f => f.Required && !f.Changed)).map (fun f => f.Name)

/-- Cobra's `ValidateRequiredFlags`: an error naming the required flags that were
not set, nil when there is none. (pflag visits flags in name order; the names are
listed here in declaration order, which is the same order for the required flags
declared by `init`.) -/
def FlagSet.ValidateRequiredFlags (fs : FlagSet) : Option GoError :=
  match FlagSet.missingRequired fs with
  | [] => none
  | names =>
    some (GoError.new ("required flag(s) \"" ++ "\", \"".intercalate names ++ "\" not set"))

/-! ## Collaborators and observable effects -/

/-- Result of a client call, a Go pair `(*InstallationDBMigrationOperation, error)`. -/
abbrev OperationResult := Option InstallationDBMigrationOperation × Option GoError

/-- The five methods of `model.Client` the commands call. The client is defined
outside the sources in scope, so its behaviour is arbitrary. The list call returns
a slice of pointers, any of which may be nil. -/
structure Client where
  MigrateInstallationDatabase : InstallationDBMigrationRequest → OperationResult
  GetInstallationDBMigrationOperations :
    GetInstallationDBMigrationOperationsRequest →
      List (Option InstallationDBMigrationOperation) × Option GoError
  GetInstallationDBMigrationOperation : String → OperationResult
  CommitInstallationDBMigration : String → OperationResult
  RollbackInstallationDBMigration : String → OperationResult

/-- A client method invocation together with its argument. -/
inductive ClientCall where
  | MigrateInstallationDatabase (request : InstallationDBMigrationRequest)
  | GetInstallationDBMigrationOperations (request : GetInstallationDBMigrationOperationsRequest)
  | GetInstallationDBMigrationOperation (id : String)
  | CommitInstallationDBMigration (id : String)
  | RollbackInstallationDBMigration (id : String)
  deriving DecidableEq, Repr

/-- Argument handed to `printJSON`. -/
inductive Payload where
  | request (r : InstallationDBMigrationRequest)
  | operation (op : Option InstallationDBMigrationOperation)
  | operations (ops : List (Option InstallationDBMigrationOperation))
  deriving DecidableEq, Repr

/-- Observable effect of a command: a call made through the client created for
`server`, a call of `printJSON`, a call of `printTable`, the help text written by
cobra's help function, or a line written by cobra itself. -/
inductive Effect where
  | call (server : String) (c : ClientCall)
  | printJSON (p : Payload)
  | printTable (keys : List String) (vals : List (List String))
  | help
  | println (text : String)
  deriving DecidableEq, Repr

/-- What running a command produced: its effects in order, the returned error, and
whether the run panicked instead of returning (then no error is returned). -/
structure Outcome where
  trace : List Effect
  err : Option GoError
  panicked : Bool := false
  deriving DecidableEq, Repr

/-- Everything the source file calls but does not define. `timeFormat ms` stands for
`model.TimeFromMillis(ms).Format("2006-01-02 15:04:05 -0700 MST")`, whose result
depends on the time zone of the process. `prepareTableData` receives the custom
columns and the operations and returns keys, rows and an error. -/
structure Env where
  NewClient : String → Client
  printJSON : Payload → Option GoError
  parsePagingFlags : FlagSet → Paging
  tableOutputEnabled : FlagSet → Bool × List String
  prepareTableData : List String → List (Option InstallationDBMigrationOperation) →
    List String × List (List String) × Option GoError
  timeFormat : Int → String

/-- The client calls of a trace, in order. -/
def clientCalls : List Effect → List (String × ClientCall)
  | [] => []
  | Effect.call server c :: rest => (server, c) :: clientCalls rest
  | _ :: rest => clientCalls rest

/-- The output effects of a trace (everything but client calls), in order. -/
def printCalls : List Effect → List Effect
  | [] => []
  | Effect.call _ _ :: rest => printCalls rest
  | e :: rest => e :: printCalls rest

/-! ## The source file -/

/-- The slice literal built in the loop of `defaultDBMigrationOperationTableData`:
the row of one operation. -/
def tableRow (timeFormat : Int → String) (migration : InstallationDBMigrationOperation) :
    List String :=
  [migration.ID, migration.InstallationID, migration.State, timeFormat migration.RequestAt]

/-- One iteration of the loop of `defaultDBMigrationOperationTableData`: the row of
`migration` is appended to `vals`. A nil `migration` panics (`none`), and nothing
is appended after a panic. -/
def appendRow (timeFormat : Int → String) (vals : Option (List (List String)))
    (migration : Option InstallationDBMigrationOperation) : Option (List (List String)) :=
  match vals, migration with
  | some vals, some migration => some (vals ++ [tableRow timeFormat migration])
  | _, _ => none

/-- Function `defaultDBMigrationOperationTableData`: the fixed header and, appended in
a loop over `ops`, one row per operation. `ops` is a slice of pointers; reading the
fields of a nil element panics, which is the result `none`. -/
def defaultDBMigrationOperationTableData (timeFormat : Int → String)
    (ops : List (Option InstallationDBMigrationOperation)) :
    Option (List String × List (List String)) :=
  let keys := ["ID", "INSTALLATION ID", "STATE", "REQUEST AT"]
  let vals := ops.foldl (appendRow timeFormat) (some [])
  match vals with
  | some vals => some (keys, vals)
  | none => none

/-- Flags of the request command as declared by `init`, merged with the inherited
persistent flags. `destinationDefault` is the constant
`model.InstallationDatabaseMultiTenantRDSPostgres`. -/
def installationDBMigrationRequestCmd_Flags (destinationDefault : String)
    (inherited : FlagSet) : FlagSet :=
  let fs := FlagSet.StringFlag [] "installation" ""
  let fs := FlagSet.StringFlag fs "destination-db" destinationDefault
  let fs := FlagSet.StringFlag fs "multi-tenant-db" ""
  let fs := FlagSet.MarkFlagRequired fs "installation"
  let fs := FlagSet.MarkFlagRequired fs "multi-tenant-db"
  FlagSet.AddFlagSet fs inherited

/-- Flags of the list command as declared by `init`; `registered` are the flags added
by `registerTableOutputFlags` and `registerPagingFlags`. -/
def installationDBMigrationsListCmd_Flags (registered inherited : FlagSet) : FlagSet :=
  let fs := FlagSet.StringFlag [] "installation" ""
  let fs := FlagSet.StringFlag fs "state" ""
  let fs := FlagSet.AddFlagSet fs registered
  FlagSet.AddFlagSet fs inherited

/-- Flags of the get, commit and rollback commands as declared by `init`: each has
the single required flag `db-migration`. -/
def installationDBMigrationByIDCmd_Flags (inherited : FlagSet) : FlagSet :=
  let fs := FlagSet.StringFlag [] "db-migration" ""
  let fs := FlagSet.MarkFlagRequired fs "db-migration"
  FlagSet.AddFlagSet fs inherited

/-- The request built by the request command from its flags. -/
def migrationRequestOf (flags : FlagSet) : InstallationDBMigrationRequest :=
  { InstallationID := FlagSet.GetString flags "installation"
    DestinationDatabase := FlagSet.GetString flags "destination-db"
    DestinationMultiTenant :=
      some { DatabaseID := FlagSet.GetString flags "multi-tenant-db" } }

/-- Body `RunE` of `installationDBMigrationRequestCmd`. -/
def installationDBMigrationRequestCmd_RunE (env : Env) (flags : FlagSet) : Outcome :=
  let serverAddress := FlagSet.GetString flags "server"
  let client := env.NewClient serverAddress
  let request := migrationRequestOf flags
  let dryRun := FlagSet.GetBool flags "dry-run"
  if dryRun then
    match env.printJSON (Payload.request request) with
    | some err =>
      { trace := [Effect.printJSON (Payload.request request)]
        err := some (GoError.wrap err "failed to print API request") }
    | none => { trace := [Effect.printJSON (Payload.request request)], err := none }
  else
    let called := Effect.call serverAddress (ClientCall.MigrateInstallationDatabase request)
    match client.MigrateInstallationDatabase request with
    | (_, some err) =>
      { trace := [called]
        err := some (GoError.wrap err "failed to request installation database migration") }
    | (migrationOperation, none) =>
      match env.printJSON (Payload.operation migrationOperation) with
      | some err =>
        { trace := [called, Effect.printJSON (Payload.operation migrationOperation)]
          err := some err }
      | none =>
        { trace := [called, Effect.printJSON (Payload.operation migrationOperation)]
          err := none }

/-- The request sent by the list command, built from its flags. -/
def listRequestOf (env : Env) (flags : FlagSet) : GetInstallationDBMigrationOperationsRequest :=
  { Paging := env.parsePagingFlags flags
    InstallationID := FlagSet.GetString flags "installation"
    State := FlagSet.GetString flags "state" }

/-- Body `RunE` of `installationDBMigrationsListCmd`. -/
def installationDBMigrationsListCmd_RunE (env : Env) (flags : FlagSet) : Outcome :=
  let serverAddress := FlagSet.GetString flags "server"
  let client := env.NewClient serverAddress
  let request := listRequestOf env flags
  let called :=
    Effect.call serverAddress (ClientCall.GetInstallationDBMigrationOperations request)
  match client.GetInstallationDBMigrationOperations request with
  | (_, some err) =>
    { trace := [called]
      err := some (GoError.wrap err "failed to list installation database migration operations") }
  | (dbMigrationOperations, none) =>
    match env.tableOutputEnabled flags with
    | (true, customCols) =>
      if customCols.length > 0 then
        match env.prepareTableData customCols dbMigrationOperations with
        | (_, _, some err) =>
          { trace := [called]
            err := some (GoError.wrap err "failed to prepare table output") }
        | (keys, vals, none) =>
          { trace := [called, Effect.printTable keys vals], err := none }
      else
        match defaultDBMigrationOperationTableData env.timeFormat dbMigrationOperations with
        | some (keys, vals) =>
          { trace := [called, Effect.printTable keys vals], err := none }
        | none => { trace := [called], err := none, panicked := true }
    | (false, _) =>
      match env.printJSON (Payload.operations dbMigrationOperations) with
      | some err =>
        { trace := [called, Effect.printJSON (Payload.operations dbMigrationOperations)]
          err := some err }
      | none =>
        { trace := [called, Effect.printJSON (Payload.operations dbMigrationOperations)]
          err := none }

/-- Body `RunE` of `installationDBMigrationGetCmd`. -/
def installationDBMigrationGetCmd_RunE (env : Env) (flags : FlagSet) : Outcome :=
  let serverAddress := FlagSet.GetString flags "server"
  let client := env.NewClient serverAddress
  let dbMigrationID := FlagSet.GetString flags "db-migration"
  let called := Effect.call serverAddress (ClientCall.GetInstallationDBMigrationOperation dbMigrationID)
  match client.GetInstallationDBMigrationOperation dbMigrationID with
  | (_, some err) =>
    { trace := [called]
      err := some (GoError.wrap err "failed to get installation database migration") }
  | (migrationOperation, none) =>
    match env.printJSON (Payload.operation migrationOperation) with
    | some err =>
      { trace := [called, Effect.printJSON (Payload.operation migrationOperation)]
        err := some err }
    | none =>
      { trace := [called, Effect.printJSON (Payload.operation migrationOperation)]
        err := none }

/-- Body `RunE` of `installationDBMigrationCommitCmd`. -/
def installationDBMigrationCommitCmd_RunE (env : Env) (flags : FlagSet) : Outcome :=
  let serverAddress := FlagSet.GetString flags "server"
  let client := env.NewClient serverAddress
  let dbMigrationID := FlagSet.GetString flags "db-migration"
  let called := Effect.call serverAddress (ClientCall.CommitInstallationDBMigration dbMigrationID)
  match client.CommitInstallationDBMigration dbMigrationID with
  | (_, some err) =>
    { trace := [called]
      err := some (GoError.wrap err "failed to commit installation database migration") }
  | (migrationOperation, none) =>
    match env.printJSON (Payload.operation migrationOperation) with
    | some err =>
      { trace := [called, Effect.printJSON (Payload.operation migrationOperation)]
        err := some err }
    | none =>
      { trace := [called, Effect.printJSON (Payload.operation migrationOperation)]
        err := none }

/-- Body `RunE` of `installationDBMigrationRollbackCmd`. -/
def installationDBMigrationRollbackCmd_RunE (env : Env) (flags : FlagSet) : Outcome :=
  let serverAddress := FlagSet.GetString flags "server"
  let client := env.NewClient serverAddress
  let dbMigrationID := FlagSet.GetString flags "db-migration"
  let called := Effect.call serverAddress (ClientCall.RollbackInstallationDBMigration dbMigrationID)
  match client.RollbackInstallationDBMigration dbMigrationID with
  | (_, some err) =>
    { trace := [called]
      err := some (GoError.wrap err "failed to trigger rollback of installation database migration") }
  | (migrationOperation, none) =>
    match env.printJSON (Payload.operation migrationOperation) with
    | some err =>
      { trace := [called, Effect.printJSON (Payload.operation migrationOperation)]
        err := some err }
    | none =>
      { trace := [called, Effect.printJSON (Payload.operation migrationOperation)]
        err := none }

/-- Cobra's execution of a command on a command line: declare the help flag, parse
the flags, and if help is asked for write the help text and return nil without
checking or running anything; otherwise check the required flags, then run the
body. Nothing of the body runs when a check fails. -/
def execute (declared : FlagSet) (RunE : FlagSet → Outcome)
    (args : List (String × String)) : Outcome :=
  match FlagSet.ParseFlags (FlagSet.InitDefaultHelpFlag declared) args with
  | Except.error e => { trace := [], err := some e }
  | Except.ok flags =>
    match FlagSet.GetBoolChecked flags "help" with
    | Except.error e =>
      { trace := [Effect.println "\"help\" flag declared as non-bool. Please correct your code"]
        err := some e }
    | Except.ok true => { trace := [Effect.help], err := none }
    | Except.ok false =>
      match FlagSet.ValidateRequiredFlags flags with
      | some e => { trace := [], err := some e }
      | none => RunE flags

/-! ## A concrete time formatter -/

/-- Decimal digit of a number below ten. -/
def digitChar : Nat → Char
  | 0 => '0' | 1 => '1' | 2 => '2' | 3 => '3' | 4 => '4'
  | 5 => '5' | 6 => '6' | 7 => '7' | 8 => '8' | _ => '9'

/-- Two decimal digits, zero padded. -/
def pad2 (n : Nat) : String :=
  String.mk [digitChar (n / 10 % 10), digitChar (n % 10)]

/-- Four decimal digits, zero padded. -/
def pad4 (n : Nat) : String :=
  String.mk [digitChar (n / 1000 % 10), digitChar (n / 100 % 10), digitChar (n / 10 % 10),
    digitChar (n % 10)]

/-- Year, month and day of the proleptic Gregorian calendar for a number of days
since 1970-01-01. -/
def civilFromDays (days : Int) : Int × Int × Int :=
  let z := days + 719468
  let era := z / 146097
  let doe := z % 146097
  let yoe := (doe - doe / 1460 + doe / 36524 - doe / 146096) / 365
  let doy := doe - (365 * yoe + yoe / 4 - yoe / 100)
  let mp := (5 * doy + 2) / 153
  let d := doy - (153 * mp + 2) / 5 + 1
  let m := if mp < 10 then mp + 3 else mp - 9
  let y := yoe + era * 400
  (if m ≤ 2 then y + 1 else y, m, d)

/-- Two's complement wrap-around of an integer to the range of int64. -/
def wrapInt64 (x : Int) : Int :=
  (x + 9223372036854775808) % 18446744073709551616 - 9223372036854775808

/-- An instance of `Env.timeFormat` for a process whose time zone is UTC.
`model.TimeFromMillis(millis)` is `time.Unix(0, millis*int64(time.Millisecond))`:
the nanosecond count is an int64 product that wraps around, and the instant is
that many nanoseconds after the Unix epoch, so its year always has four digits. The
layout `2006-01-02 15:04:05 -0700 MST` drops the fraction of the second. -/
def utcTimeFormat (millis : Int) : String :=
  let nsec := wrapInt64 (wrapInt64 millis * 1000000)
  let sec := nsec / 1000000000
  let sod := (sec % 86400).toNat
  let (y, m, d) := civilFromDays (sec / 86400)
  pad4 y.toNat ++ "-" ++ pad2 m.toNat ++ "-" ++ pad2 d.toNat ++ " " ++
    pad2 (sod / 3600) ++ ":" ++ pad2 (sod % 3600 / 60) ++ ":" ++ pad2 (sod % 60) ++
    " +0000 UTC"

/-! ## The server-side migration state machine (specification, sections 4.3 and 5) -/

/-- Modelled from the spec: the states of the migration state machine (section 4.3);
the server-side state machine is not part of the sources in scope. -/
inductive MigrationState where
  | requested | reserving | quiescing | copying | migrated | committing
  | rollingBack | committed | rolledBack | failed | abandoned
  deriving DecidableEq, Repr

/-- Modelled from the spec: the events of the transition table of section 4.3. -/
inductive MigrationEvent where
  | begin | slotReserved | reservationFailed | installationPaused
  | dataCopySucceeded | dataCopyFailed | commitRequested | rollbackRequested
  | finalizeSucceeded | restoreSucceeded | retry | retriesExhausted
  deriving DecidableEq, Repr

/-- Modelled from the spec: the transition table of section 4.3, row by row (the
guard of a row is taken to hold when its event is delivered). An event that has no
row for the current state is rejected (`none`). -/
def MigrationState.transition : MigrationState → MigrationEvent → Option MigrationState
  | .requested, .begin => some .reserving
  | .reserving, .slotReserved => some .quiescing
  | .reserving, .reservationFailed => some .failed
  | .quiescing, .installationPaused => some .copying
  | .copying, .dataCopySucceeded => some .migrated
  | .copying, .dataCopyFailed => some .failed
  | .migrated, .commitRequested => some .committing
  | .migrated, .rollbackRequested => some .rollingBack
  | .committing, .finalizeSucceeded => some .committed
  | .rollingBack, .restoreSucceeded => some .rolledBack
  | .failed, .retry => some .requested
  | .failed, .retriesExhausted => some .abandoned
  | _, _ => none

/-- Modelled from the spec: the terminal states (glossary): `committed`,
`rolled-back` and `abandoned`. -/
def MigrationState.isTerminal : MigrationState → Bool
  | .committed => true
  | .rolledBack => true
  | .abandoned => true
  | _ => false

/-- Modelled from the spec: the errors of the invalid-transition class (section 7). -/
inductive MigrationError where
  | InvalidStateForCancel
  | InvalidTransition
  deriving DecidableEq, Repr

/-- Modelled from the spec: the stored migration operation of section 3, as far as
the state machine reads and writes it. -/
structure MigrationOperation where
  id : String
  installationID : String
  state : MigrationState
  version : Nat
  failureReason : Option String
  deriving DecidableEq, Repr

/-- Modelled from the spec: delivery of an event to a stored operation. A transition
of the table is recorded with the next version; a rejected event leaves the
operation as it is. -/
def MigrationOperation.apply (op : MigrationOperation) (ev : MigrationEvent) :
    MigrationOperation × Bool :=
  match MigrationState.transition op.state ev with
  | some next => ({ op with state := next, version := op.version + 1 }, true)
  | none => (op, false)

/-- Modelled from the spec: `RollbackOperation(id)` of section 6 on the stored
operation. It delivers the event "rollback requested"; when the state machine
rejects it the call fails with `InvalidStateForCancel` (section 5, Cancellation)
and the operation is not mutated (section 7). The result is the operation as
stored after the call and the error. -/
def RollbackOperation (op : MigrationOperation) :
    MigrationOperation × Option MigrationError :=
  match MigrationOperation.apply op MigrationEvent.rollbackRequested with
  | (op1, true) => (op1, none)
  | (op1, false) => (op1, some MigrationError.InvalidStateForCancel)

/-- Modelled from the spec: `CommitOperation(id)` of section 6 on the stored
operation: it delivers the event "commit requested". -/
def CommitOperation (op : MigrationOperation) :
    MigrationOperation × Option MigrationError :=
  match MigrationOperation.apply op MigrationEvent.commitRequested with
  | (op1, true) => (op1, none)
  | (op1, false) => (op1, some MigrationError.InvalidTransition)

/-- Two operations agree on the four fields the default table reads. -/
def SameDisplayedFields (a b : InstallationDBMigrationOperation) : Prop :=
  a.ID = b.ID ∧ a.InstallationID = b.InstallationID ∧ a.State = b.State ∧
    a.RequestAt = b.RequestAt

/-- What one `Set` does to each flag: names and required marks stay, and a flag
becomes changed only if it carries the name that was set. -/
def SetStep (n : String) (f f1 : Flag) : Prop :=
  f1.Name = f.Name ∧ f1.Required = f.Required ∧
    (f1.Changed = true → f.Changed = true ∨ f.Name = n)

/-- What parsing the command line `args` does to each flag: names and required marks
stay, and a flag is changed afterwards only if it was changed before or the
command line supplies a value for its name. -/
def ParseStep (args : List (String × String)) (f f1 : Flag) : Prop :=
  f1.Name = f.Name ∧ f1.Required = f.Required ∧
    (f1.Changed = true → f.Changed = true ∨ ∃ v, (f.Name, v) ∈ args)

/-! ## Sample inputs used to instantiate the theorems -/

/-- A stored operation that failed, with lock and version data. -/
def sampleFailedOperation : InstallationDBMigrationOperation :=
  { ID := "op-1", InstallationID := "inst-1", RequestAt := 1600000000123, State := "failed"
    DestinationDatabase := "aws-multitenant-rds-postgres"
    DestinationMultiTenant := some { DatabaseID := "db-1" }
    FailureReason := some "data copy failed", Version := 7
    LockAcquiredBy := some "worker-2", LockAcquiredAt := 1600000000500 }

/-- The failed sample operation with another version, lock owner, lock time and
failure reason; the four displayed fields are the same. -/
def sampleRelockedOperation : InstallationDBMigrationOperation :=
  { sampleFailedOperation with
    Version := 8, LockAcquiredBy := none, LockAcquiredAt := 0, FailureReason := none }

/-- A second operation, without failure reason or lock. -/
def sampleSucceededOperation : InstallationDBMigrationOperation :=
  { ID := "op-2", InstallationID := "inst-2", RequestAt := 0, State := "succeeded"
    DestinationDatabase := "aws-multitenant-rds-postgres"
    DestinationMultiTenant := some { DatabaseID := "db-1" }
    FailureReason := none, Version := 3, LockAcquiredBy := none, LockAcquiredAt := 0 }

/-- A client whose every call succeeds: the list call returns the two sample
operations, failed one first. -/
def sampleClient : Client :=
  { MigrateInstallationDatabase := fun _ => (some sampleSucceededOperation, none)
    GetInstallationDBMigrationOperations := fun _ =>
      ([some sampleFailedOperation, some sampleSucceededOperation], none)
    GetInstallationDBMigrationOperation := fun _ => (some sampleFailedOperation, none)
    CommitInstallationDBMigration := fun _ => (some sampleSucceededOperation, none)
    RollbackInstallationDBMigration := fun _ => (some sampleSucceededOperation, none) }

/-- A sample of `tableOutputEnabled`: table output is on when `--table` is set or a
custom column is given; the sample command lines give at most one custom column. -/
def sampleTableOutputEnabled (flags : FlagSet) : Bool × List String :=
  let customCols :=
    if FlagSet.GetString flags "custom-columns" = "" then []
    else [FlagSet.GetString flags "custom-columns"]
  (FlagSet.GetBool flags "table" || decide (customCols.length > 0), customCols)

/-- A sample of `prepareTableData`: a custom column that is not of the form
`NAME:JSONPATH` is rejected (the message is a stand-in); columns of that form are
not evaluated in this sample. -/
def samplePrepareTableData (customCols : List String)
    (_data : List (Option InstallationDBMigrationOperation)) :
    List String × List (List String) × Option GoError :=
  if customCols.all (fun c => c.data.contains ':') then (customCols, [], none)
  else ([], [], some (GoError.new "invalid custom column"))

/-- An environment in which every call succeeds, printing never fails and the time
zone is UTC; the paging is the default page. -/
def sampleEnv : Env :=
  { NewClient := fun _ => sampleClient
    printJSON := fun _ => none
    parsePagingFlags := fun _ => { Page := 0, PerPage := 100 }
    tableOutputEnabled := sampleTableOutputEnabled
    prepareTableData := samplePrepareTableData
    timeFormat := utcTimeFormat }

/-- A client whose list call returns a slice with a nil element (a JSON `null` in the
server's answer). -/
def sampleNullClient : Client :=
  { sampleClient with
    GetInstallationDBMigrationOperations := fun _ =>
      ([some sampleFailedOperation, none], none) }

/-- The sample environment with the client that returns a nil element. -/
def sampleNullEnv : Env :=
  { sampleEnv with NewClient := fun _ => sampleNullClient }

/-- The persistent flags of the root command inherited by every command: the server
address and the dry-run switch. -/
def sampleInherited : FlagSet :=
  [{ Name := "server", Value := FlagValue.string "http://localhost:8075", Changed := false,
     Required := false },
   { Name := "dry-run", Value := FlagValue.bool false, Changed := false, Required := false }]

/-- The flags registered on the list command for table output. -/
def sampleRegistered : FlagSet :=
  [{ Name := "table", Value := FlagValue.bool false, Changed := false, Required := false },
   { Name := "custom-columns", Value := FlagValue.string "", Changed := false,
     Required := false }]

/-- The help flag cobra declares on every command. -/
def helpFlag : Flag :=
  { Name := "help", Value := FlagValue.bool false, Changed := false, Required := false }

/-- The flags of the list command after parsing `--table=true`. -/
def sampleTableFlags : FlagSet :=
  [{ Name := "installation", Value := FlagValue.string "", Changed := false,
     Required := false },
   { Name := "state", Value := FlagValue.string "", Changed := false, Required := false },
   { Name := "table", Value := FlagValue.bool true, Changed := true, Required := false },
   { Name := "custom-columns", Value := FlagValue.string "", Changed := false,
     Required := false },
   { Name := "server", Value := FlagValue.string "http://localhost:8075", Changed := false,
     Required := false },
   { Name := "dry-run", Value := FlagValue.bool false, Changed := false, Required := false },
   helpFlag]

/-- The flags of the list command after parsing `--custom-columns=BOGUS`. -/
def sampleCustomColumnFlags : FlagSet :=
  [{ Name := "installation", Value := FlagValue.string "", Changed := false,
     Required := false },
   { Name := "state", Value := FlagValue.string "", Changed := false, Required := false },
   { Name := "table", Value := FlagValue.bool false, Changed := false, Required := false },
   { Name := "custom-columns", Value := FlagValue.string "BOGUS", Changed := true,
     Required := false },
   { Name := "server", Value := FlagValue.string "http://localhost:8075", Changed := false,
     Required := false },
   { Name := "dry-run", Value := FlagValue.bool false, Changed := false, Required := false },
   helpFlag]

/-- The flags of the request command after parsing a command line that supplies
both required flags. -/
def sampleParsedRequestFlags : FlagSet :=
  { Name := "installation", Value := FlagValue.string "inst-1", Changed := true,
    Required := true } ::
  { Name := "destination-db", Value := FlagValue.string "aws-multitenant-rds-postgres",
    Changed := false, Required := false } ::
  { Name := "multi-tenant-db", Value := FlagValue.string "db-1", Changed := true,
    Required := true } :: (sampleInherited ++ [helpFlag])

/-- The flags of the request command after parsing a command line that supplies both
required flags and `--dry-run=true`. -/
def sampleDryRunFlags : FlagSet :=
  [{ Name := "installation", Value := FlagValue.string "inst-1", Changed := true,
     Required := true },
   { Name := "destination-db", Value := FlagValue.string "aws-multitenant-rds-postgres",
     Changed := false, Required := false },
   { Name := "multi-tenant-db", Value := FlagValue.string "db-1", Changed := true,
     Required := true },
   { Name := "server", Value := FlagValue.string "http://localhost:8075", Changed := false,
     Required := false },
   { Name := "dry-run", Value := FlagValue.bool true, Changed := true, Required := false },
   helpFlag]

/-- The flags of the request command after parsing `--help=true`. -/
def sampleHelpFlags : FlagSet :=
  [{ Name := "installation", Value := FlagValue.string "", Changed := false,
     Required := true },
   { Name := "destination-db", Value := FlagValue.string "aws-multitenant-rds-postgres",
     Changed := false, Required := false },
   { Name := "multi-tenant-db", Value := FlagValue.string "", Changed := false,
     Required := true },
   { Name := "server", Value := FlagValue.string "http://localhost:8075", Changed := false,
     Required := false },
   { Name := "dry-run", Value := FlagValue.bool false, Changed := false, Required := false },
   { Name := "help", Value := FlagValue.bool true, Changed := true, Required := false }]

/-- A client whose rollback call is rejected by the server. -/
def sampleRejectingClient : Client :=
  { sampleClient with
    RollbackInstallationDBMigration := fun _ =>
      (none, some (GoError.new "failed with status code 400")) }

/-- The sample environment with the rejecting client. -/
def sampleRejectingEnv : Env :=
  { sampleEnv with NewClient := fun _ => sampleRejectingClient }

/-- The flags of the rollback command after parsing `--db-migration=op-1`. -/
def sampleRollbackFlags : FlagSet :=
  { Name := "db-migration", Value := FlagValue.string "op-1", Changed := true,
    Required := true } :: (sampleInherited ++ [helpFlag])

/-- A stored operation in state `committed`. -/
def sampleCommittedOperation : MigrationOperation :=
  { id := "op-1", installationID := "inst-1", state := MigrationState.committed,
    version := 9, failureReason := none }

/-- A stored operation in state `migrated`. -/
def sampleMigratedOperation : MigrationOperation :=
  { id := "op-2", installationID := "inst-2", state := MigrationState.migrated,
    version := 5, failureReason := none }

/-! ## Lemmas on the default table -/

theorem foldl_appendRow_none (timeFormat : Int → String)
    (ops : List (Option InstallationDBMigrationOperation)) :
    ops.foldl (appendRow timeFormat) none = none := by
  induction ops with
  | nil => rfl
  | cons o rest ih => simpa [List.foldl_cons, appendRow] using ih

theorem foldl_appendRow_some (timeFormat : Int → String)
    (xs : List InstallationDBMigrationOperation) (acc : List (List String)) :
    (xs.map some).foldl (appendRow timeFormat) (some acc) =
      some (acc ++ xs.map (tableRow timeFormat)) := by
  induction xs generalizing acc with
  | nil => simp
  | cons x rest ih => simp [List.foldl_cons, appendRow, ih]

theorem foldl_appendRow_inv (timeFormat : Int → String)
    (ops : List (Option InstallationDBMigrationOperation)) (acc rows : List (List String))
    (h : ops.foldl (appendRow timeFormat) (some acc) = some rows) :
    ∃ xs : List InstallationDBMigrationOperation,
      ops = xs.map some ∧ rows = acc ++ xs.map (tableRow timeFormat) := by
  induction ops generalizing acc with
  | nil =>
    refine ⟨[], rfl, ?_⟩
    simpa using h.symm
  | cons o rest ih =>
    cases o with
    | none =>
      simp only [List.foldl_cons, appendRow, foldl_appendRow_none] at h
      cases h
    | some x =>
      simp only [List.foldl_cons, appendRow] at h
      obtain ⟨xs, h1, h2⟩ := ih _ h
      exact ⟨x :: xs, by simp [h1], by simp [h2]⟩

theorem defaultTable_of_some (timeFormat : Int → String)
    (xs : List InstallationDBMigrationOperation) :
    defaultDBMigrationOperationTableData timeFormat (xs.map some) =
      some (["ID", "INSTALLATION ID", "STATE", "REQUEST AT"],
        xs.map (tableRow timeFormat)) := by
  simp [defaultDBMigrationOperationTableData, foldl_appendRow_some]

theorem defaultTable_inv (timeFormat : Int → String)
    (ops : List (Option InstallationDBMigrationOperation)) (keys : List String)
    (rows : List (List String))
    (h : defaultDBMigrationOperationTableData timeFormat ops = some (keys, rows)) :
    ∃ xs : List InstallationDBMigrationOperation,
      ops = xs.map some ∧ keys = ["ID", "INSTALLATION ID", "STATE", "REQUEST AT"] ∧
      rows = xs.map (tableRow timeFormat) := by
  unfold defaultDBMigrationOperationTableData at h
  cases hf : ops.foldl (appendRow timeFormat) (some []) with
  | none => simp [hf] at h
  | some vals =>
    simp only [hf, Option.some.injEq, Prod.mk.injEq] at h
    obtain ⟨xs, h1, h2⟩ := foldl_appendRow_inv timeFormat ops [] vals hf
    exact ⟨xs, h1, h.1.symm, by rw [← h.2, h2]; simp⟩

theorem exists_map_some (ops : List (Option InstallationDBMigrationOperation))
    (h : ∀ o ∈ ops, o ≠ none) :
    ∃ xs : List InstallationDBMigrationOperation, ops = xs.map some := by
  induction ops with
  | nil => exact ⟨[], rfl⟩
  | cons o rest ih =>
    obtain ⟨xs, hxs⟩ := ih (fun x hx => h x (List.mem_cons_of_mem _ hx))
    cases o with
    | none => exact absurd rfl (h none (List.mem_cons_self _ _))
    | some x => exact ⟨x :: xs, by simp [hxs]⟩

theorem foldl_appendRow_congr (timeFormat : Int → String)
    (g : InstallationDBMigrationOperation → InstallationDBMigrationOperation)
    (hg : ∀ op, tableRow timeFormat (g op) = tableRow timeFormat op)
    (ops : List (Option InstallationDBMigrationOperation))
    (acc : Option (List (List String))) :
    (ops.map (Option.map g)).foldl (appendRow timeFormat) acc =
      ops.foldl (appendRow timeFormat) acc := by
  induction ops generalizing acc with
  | nil => rfl
  | cons o rest ih =>
    cases o with
    | none => simp [List.foldl_cons, appendRow, ih]
    | some x =>
      cases acc with
      | none => simp [List.foldl_cons, appendRow, ih]
      | some a => simp [List.foldl_cons, appendRow, ih, hg]

theorem map_tableRow_congr (timeFormat : Int → String)
    (xs ys : List InstallationDBMigrationOperation)
    (h : List.Forall₂ SameDisplayedFields xs ys) :
    xs.map (tableRow timeFormat) = ys.map (tableRow timeFormat) := by
  induction h with
  | nil => rfl
  | cons hab _ ih =>
    obtain ⟨h1, h2, h3, h4⟩ := hab
    simp [tableRow, h1, h2, h3, h4, ih]

/-! ## Lemmas on flag sets -/

theorem Lookup_append_of_some {a b : FlagSet} {n : String} {f : Flag}
    (h : FlagSet.Lookup a n = some f) : FlagSet.Lookup (a ++ b) n = some f := by
  induction a with
  | nil => simp [FlagSet.Lookup] at h
  | cons g rest ih =>
    by_cases hg : g.Name = n
    · simpa [FlagSet.Lookup, hg] using h
    · simp only [FlagSet.Lookup, hg, if_false] at h
      simpa [FlagSet.Lookup, hg] using ih h

theorem Lookup_append_of_none {a b : FlagSet} {n : String}
    (h : FlagSet.Lookup a n = none) : FlagSet.Lookup (a ++ b) n = FlagSet.Lookup b n := by
  induction a with
  | nil => rfl
  | cons g rest ih =>
    by_cases hg : g.Name = n
    · simp [FlagSet.Lookup, hg] at h
    · simp only [FlagSet.Lookup, hg, if_false] at h
      simpa [FlagSet.Lookup, hg] using ih h

theorem Lookup_none_of_append {a b : FlagSet} {n : String}
    (h : FlagSet.Lookup (a ++ b) n = none) : FlagSet.Lookup a n = none := by
  cases ha : FlagSet.Lookup a n with
  | none => rfl
  | some f => rw [Lookup_append_of_some ha] at h; cases h

/-- Shape of a merged flag set: the flags already present, followed by flags of the
added set whose names were free; lookups of free names are those of the added set. -/
theorem AddFlagSet_spec (extra fs : FlagSet) :
    ∃ rest, FlagSet.AddFlagSet fs extra = fs ++ rest ∧
      (∀ g ∈ rest, g ∈ extra ∧ FlagSet.Lookup fs g.Name = none) ∧
      (∀ n, FlagSet.Lookup fs n = none → FlagSet.Lookup rest n = FlagSet.Lookup extra n) := by
  induction extra generalizing fs with
  | nil => exact ⟨[], by simp [FlagSet.AddFlagSet], by simp, by intros; rfl⟩
  | cons f more ih =>
    cases hf : FlagSet.Lookup fs f.Name with
    | some g =>
      obtain ⟨rest, h1, h2, h3⟩ := ih fs
      refine ⟨rest, ?_, ?_, ?_⟩
      · simp [FlagSet.AddFlagSet, hf, h1]
      · intro x hx
        exact ⟨List.mem_cons_of_mem _ (h2 x hx).1, (h2 x hx).2⟩
      · intro n hn
        have hne : ¬ f.Name = n := by
          intro e
          rw [e, hn] at hf
          cases hf
        simp [FlagSet.Lookup, hne, h3 n hn]
    | none =>
      obtain ⟨rest, h1, h2, h3⟩ := ih (fs ++ [f])
      refine ⟨f :: rest, ?_, ?_, ?_⟩
      · simp [FlagSet.AddFlagSet, hf, h1]
      · intro x hx
        rcases List.mem_cons.1 hx with hx | hx
        · subst hx
          exact ⟨List.mem_cons_self _ _, hf⟩
        · exact ⟨List.mem_cons_of_mem _ (h2 x hx).1, Lookup_none_of_append (h2 x hx).2⟩
      · intro n hn
        by_cases hne : f.Name = n
        · simp [FlagSet.Lookup, hne]
        · have hfs : FlagSet.Lookup (fs ++ [f]) n = none := by
            rw [Lookup_append_of_none hn]
            simp [FlagSet.Lookup, hne]
          simp [FlagSet.Lookup, hne, h3 n hfs]

theorem SetStep_refl (n : String) (fs : FlagSet) : List.Forall₂ (SetStep n) fs fs := by
  induction fs with
  | nil => exact List.Forall₂.nil
  | cons f rest ih => exact List.Forall₂.cons ⟨rfl, rfl, fun h => Or.inl h⟩ ih

theorem Set_shape {fs fs1 : FlagSet} {n v : String}
    (h : FlagSet.Set fs n v = Except.ok fs1) : List.Forall₂ (SetStep n) fs fs1 := by
  induction fs generalizing fs1 with
  | nil => simp [FlagSet.Set] at h
  | cons f rest ih =>
    by_cases hf : f.Name = n
    · simp only [FlagSet.Set, hf, if_true] at h
      cases hv : f.Value with
      | string s =>
        simp only [hv, Except.ok.injEq] at h
        subst h
        exact List.Forall₂.cons ⟨hf.symm, rfl, fun _ => Or.inr hf⟩ (SetStep_refl n rest)
      | bool b =>
        simp only [hv] at h
        cases hb : parseBool v with
        | none => simp [hb] at h
        | some b1 =>
          simp only [hb, Except.ok.injEq] at h
          subst h
          exact List.Forall₂.cons ⟨hf.symm, rfl, fun _ => Or.inr hf⟩ (SetStep_refl n rest)
    · simp only [FlagSet.Set, hf, if_false] at h
      cases hr : FlagSet.Set rest n v with
      | error e => simp [hr] at h
      | ok rest1 =>
        simp only [hr, Except.ok.injEq] at h
        subst h
        exact List.Forall₂.cons ⟨rfl, rfl, fun hc => Or.inl hc⟩ (ih hr)

theorem Set_lookup_ne {fs fs1 : FlagSet} {n v m : String}
    (h : FlagSet.Set fs n v = Except.ok fs1) (hm : m ≠ n) :
    FlagSet.Lookup fs1 m = FlagSet.Lookup fs m := by
  induction fs generalizing fs1 with
  | nil => simp [FlagSet.Set] at h
  | cons f rest ih =>
    by_cases hf : f.Name = n
    · have hfm : ¬ f.Name = m := fun e => hm (e ▸ hf)
      simp only [FlagSet.Set, hf, if_true] at h
      cases hv : f.Value with
      | string s =>
        simp only [hv, Except.ok.injEq] at h
        subst h
        simp [FlagSet.Lookup, hfm, hf, Ne.symm hm]
      | bool b =>
        simp only [hv] at h
        cases hb : parseBool v with
        | none => simp [hb] at h
        | some b1 =>
          simp only [hb, Except.ok.injEq] at h
          subst h
          simp [FlagSet.Lookup, hfm, hf, Ne.symm hm]
    · simp only [FlagSet.Set, hf, if_false] at h
      cases hr : FlagSet.Set rest n v with
      | error e => simp [hr] at h
      | ok rest1 =>
        simp only [hr, Except.ok.injEq] at h
        subst h
        by_cases hfm : f.Name = m
        · simp [FlagSet.Lookup, hfm]
        · simp [FlagSet.Lookup, hfm, ih hr]

theorem Set_lookup_changed {fs fs1 : FlagSet} {n v : String}
    (h : FlagSet.Set fs n v = Except.ok fs1) :
    ∃ f, FlagSet.Lookup fs1 n = some f ∧ f.Changed = true := by
  induction fs generalizing fs1 with
  | nil => simp [FlagSet.Set] at h
  | cons f rest ih =>
    by_cases hf : f.Name = n
    · simp only [FlagSet.Set, hf, if_true] at h
      cases hv : f.Value with
      | string s =>
        simp only [hv, Except.ok.injEq] at h
        subst h
        exact ⟨⟨n, FlagValue.string v, true, f.Required⟩, by simp [FlagSet.Lookup], rfl⟩
      | bool b =>
        simp only [hv] at h
        cases hb : parseBool v with
        | none => simp [hb] at h
        | some b1 =>
          simp only [hb, Except.ok.injEq] at h
          subst h
          exact ⟨⟨n, FlagValue.bool b1, true, f.Required⟩, by simp [FlagSet.Lookup], rfl⟩
    · simp only [FlagSet.Set, hf, if_false] at h
      cases hr : FlagSet.Set rest n v with
      | error e => simp [hr] at h
      | ok rest1 =>
        simp only [hr, Except.ok.injEq] at h
        subst h
        obtain ⟨g, hg, hc⟩ := ih hr
        exact ⟨g, by simp [FlagSet.Lookup, hf, hg], hc⟩

theorem Set_lookup_changed_mono {fs fs1 : FlagSet} {n v m : String} {f : Flag}
    (h : FlagSet.Set fs n v = Except.ok fs1)
    (hl : FlagSet.Lookup fs m = some f) (hc : f.Changed = true) :
    ∃ g, FlagSet.Lookup fs1 m = some g ∧ g.Changed = true := by
  by_cases hm : m = n
  · subst hm
    exact Set_lookup_changed h
  · exact ⟨f, by rw [Set_lookup_ne h hm, hl], hc⟩

theorem Forall₂_compose {α : Type} {R S T : α → α → Prop}
    (hRS : ∀ a b c, R a b → S b c → T a c) {xs ys zs : List α}
    (h1 : List.Forall₂ R xs ys) (h2 : List.Forall₂ S ys zs) : List.Forall₂ T xs zs := by
  induction h1 generalizing zs with
  | nil => cases h2; exact List.Forall₂.nil
  | cons hab _ ih =>
    cases h2 with
    | cons hbc htail => exact List.Forall₂.cons (hRS _ _ _ hab hbc) (ih htail)

theorem ParseStep_refl (args : List (String × String)) (fs : FlagSet) :
    List.Forall₂ (ParseStep args) fs fs := by
  induction fs with
  | nil => exact List.Forall₂.nil
  | cons f rest ih => exact List.Forall₂.cons ⟨rfl, rfl, fun h => Or.inl h⟩ ih

theorem ParseFlags_cons {fs parsed : FlagSet} {n v : String} {rest : List (String × String)}
    (h : FlagSet.ParseFlags fs ((n, v) :: rest) = Except.ok parsed) :
    ∃ fs1, FlagSet.Set fs n v = Except.ok fs1 ∧
      FlagSet.ParseFlags fs1 rest = Except.ok parsed := by
  cases hs : FlagSet.Set fs n v with
  | error e => simp [FlagSet.ParseFlags, hs] at h
  | ok fs1 => exact ⟨fs1, rfl, by simpa [FlagSet.ParseFlags, hs] using h⟩

theorem ParseFlags_shape {args : List (String × String)} {fs parsed : FlagSet}
    (h : FlagSet.ParseFlags fs args = Except.ok parsed) :
    List.Forall₂ (ParseStep args) fs parsed := by
  induction args generalizing fs with
  | nil =>
    simp only [FlagSet.ParseFlags, Except.ok.injEq] at h
    subst h
    exact ParseStep_refl [] fs
  | cons p rest ih =>
    obtain ⟨n, v⟩ := p
    obtain ⟨fs1, hs, hp⟩ := ParseFlags_cons h
    refine Forall₂_compose ?_ (Set_shape hs) (ih hp)
    intro a b c hab hbc
    obtain ⟨hn1, hr1, hc1⟩ := hab
    obtain ⟨hn2, hr2, hc2⟩ := hbc
    refine ⟨hn2.trans hn1, hr2.trans hr1, fun hc => ?_⟩
    rcases hc2 hc with hb | ⟨w, hw⟩
    · rcases hc1 hb with ha | ha
      · exact Or.inl ha
      · exact Or.inr ⟨v, by simp [ha]⟩
    · exact Or.inr ⟨w, by rw [hn1] at hw; exact List.mem_cons_of_mem _ hw⟩

theorem ParseFlags_lookup_not_supplied {args : List (String × String)} {fs parsed : FlagSet}
    {m : String} (h : FlagSet.ParseFlags fs args = Except.ok parsed)
    (hm : ∀ v, (m, v) ∉ args) : FlagSet.Lookup parsed m = FlagSet.Lookup fs m := by
  induction args generalizing fs with
  | nil =>
    simp only [FlagSet.ParseFlags, Except.ok.injEq] at h
    subst h
    rfl
  | cons p rest ih =>
    obtain ⟨n, v⟩ := p
    obtain ⟨fs1, hs, hp⟩ := ParseFlags_cons h
    have hne : m ≠ n := by
      intro e
      exact hm v (by simp [e])
    rw [ih hp (fun w hw => hm w (List.mem_cons_of_mem _ hw)), Set_lookup_ne hs hne]

theorem ParseFlags_lookup_changed_mono {args : List (String × String)} {fs parsed : FlagSet}
    {m : String} {f : Flag} (h : FlagSet.ParseFlags fs args = Except.ok parsed)
    (hl : FlagSet.Lookup fs m = some f) (hc : f.Changed = true) :
    ∃ g, FlagSet.Lookup parsed m = some g ∧ g.Changed = true := by
  induction args generalizing fs f with
  | nil =>
    simp only [FlagSet.ParseFlags, Except.ok.injEq] at h
    subst h
    exact ⟨f, hl, hc⟩
  | cons p rest ih =>
    obtain ⟨n, v⟩ := p
    obtain ⟨fs1, hs, hp⟩ := ParseFlags_cons h
    obtain ⟨g, hg, hgc⟩ := Set_lookup_changed_mono hs hl hc
    exact ih hp hg hgc

theorem ParseFlags_lookup_supplied {args : List (String × String)} {fs parsed : FlagSet}
    {m w : String} (h : FlagSet.ParseFlags fs args = Except.ok parsed)
    (hm : (m, w) ∈ args) : ∃ g, FlagSet.Lookup parsed m = some g ∧ g.Changed = true := by
  induction args generalizing fs with
  | nil => cases hm
  | cons p rest ih =>
    obtain ⟨n, v⟩ := p
    obtain ⟨fs1, hs, hp⟩ := ParseFlags_cons h
    rcases List.mem_cons.1 hm with heq | hin
    · obtain ⟨hn, _⟩ := Prod.mk.inj heq
      subst hn
      obtain ⟨g, hg, hgc⟩ := Set_lookup_changed hs
      exact ParseFlags_lookup_changed_mono hp hg hgc
    · exact ih hp hin

theorem ValidateRequiredFlags_eq_none (fs : FlagSet) :
    FlagSet.ValidateRequiredFlags fs = none ↔ FlagSet.missingRequired fs = [] := by
  unfold FlagSet.ValidateRequiredFlags
  cases FlagSet.missingRequired fs with
  | nil => simp
  | cons a l => simp

theorem missingRequired_of_not_required {fs : FlagSet}
    (h : ∀ f ∈ fs, f.Required = false) : FlagSet.missingRequired fs = [] := by
  simp only [FlagSet.missingRequired, List.map_eq_nil_iff, List.filter_eq_nil_iff]
  intro f hf
  simp [h f hf]

theorem Forall₂_ParseStep_not_required {args : List (String × String)} {fs parsed : FlagSet}
    (h : List.Forall₂ (ParseStep args) fs parsed) (hr : ∀ f ∈ fs, f.Required = false) :
    ∀ f ∈ parsed, f.Required = false := by
  induction h with
  | nil => simp
  | cons hab _ ih =>
    intro f hf
    rcases List.mem_cons.1 hf with e | e
    · subst e
      rw [hab.2.1]
      exact hr _ (List.mem_cons_self _ _)
    · exact ih (fun g hg => hr g (List.mem_cons_of_mem _ hg)) f e

theorem Forall₂_ParseStep_names {args : List (String × String)} {fs parsed : FlagSet}
    (P : String → Prop) (h : List.Forall₂ (ParseStep args) fs parsed)
    (hr : ∀ f ∈ fs, P f.Name) : ∀ f ∈ parsed, P f.Name := by
  induction h with
  | nil => simp
  | cons hab _ ih =>
    intro f hf
    rcases List.mem_cons.1 hf with e | e
    · subst e
      rw [hab.1]
      exact hr _ (List.mem_cons_self _ _)
    · exact ih (fun g hg => hr g (List.mem_cons_of_mem _ hg)) f e

/-! ## The default table of the list command -/

/-- C4 (as stated, refuted): the operation `sampleFailedOperation` has the failure
reason "data copy failed", yet its row in the default table is ID, installation
ID, state and request time only; the failure reason is not in the row. -/
theorem defaultTable_omits_failure_reason :
    sampleFailedOperation.FailureReason = some "data copy failed" ∧
    defaultDBMigrationOperationTableData utcTimeFormat [some sampleFailedOperation] =
      some (["ID", "INSTALLATION ID", "STATE", "REQUEST AT"],
        [["op-1", "inst-1", "failed", "2020-09-13 12:26:40 +0000 UTC"]]) ∧
    "data copy failed" ∉ ["op-1", "inst-1", "failed", "2020-09-13 12:26:40 +0000 UTC"] := by
  decide

/-- C4 (amended): whenever the default table is rendered for a list of operations,
the keys are the fixed header and the row at the position of each operation is
exactly its ID, its InstallationID, its State and its formatted RequestAt, so the
row contains the operation's state; the table is rendered for every list without a
nil element; and the failure reason is not read: replacing the failure reason of
every operation by any other value leaves the result unchanged. -/
theorem defaultTable_shows_state_not_failure_reason (timeFormat : Int → String)
    (ops : List (Option InstallationDBMigrationOperation)) :
    (∀ keys rows, defaultDBMigrationOperationTableData timeFormat ops = some (keys, rows) →
      keys = ["ID", "INSTALLATION ID", "STATE", "REQUEST AT"] ∧
      ∀ (i : Nat) (op : InstallationDBMigrationOperation), ops[i]? = some (some op) →
        ∃ row, rows[i]? = some row ∧
          row = [op.ID, op.InstallationID, op.State, timeFormat op.RequestAt] ∧
          op.State ∈ row) ∧
    ((∀ o ∈ ops, o ≠ none) →
      ∃ rows, defaultDBMigrationOperationTableData timeFormat ops =
        some (["ID", "INSTALLATION ID", "STATE", "REQUEST AT"], rows)) ∧
    (∀ reason : InstallationDBMigrationOperation → Option String,
      defaultDBMigrationOperationTableData timeFormat
          (ops.map (Option.map (fun (op : InstallationDBMigrationOperation) =>
            { op with FailureReason := reason op }))) =
        defaultDBMigrationOperationTableData timeFormat ops) := by
  refine ⟨?_, ?_, ?_⟩
  · intro keys rows h
    obtain ⟨xs, h1, h2, h3⟩ := defaultTable_inv timeFormat ops keys rows h
    refine ⟨h2, ?_⟩
    intro i op hi
    refine ⟨[op.ID, op.InstallationID, op.State, timeFormat op.RequestAt], ?_, rfl, ?_⟩
    · rw [h1, List.getElem?_map] at hi
      rw [h3, List.getElem?_map]
      cases hx : xs[i]? with
      | none => simp [hx] at hi
      | some x =>
        simp only [hx, Option.map_some', Option.some.injEq] at hi
        subst hi
        rfl
    · simp
  · intro hall
    obtain ⟨xs, hxs⟩ := exists_map_some ops hall
    exact ⟨xs.map (tableRow timeFormat), by rw [hxs, defaultTable_of_some]⟩
  · intro reason
    have hf := foldl_appendRow_congr timeFormat
      (fun (op : InstallationDBMigrationOperation) => { op with FailureReason := reason op })
      (fun _ => rfl) ops (some [])
    simp only [defaultDBMigrationOperationTableData, hf]

/-- Witness of C4 (amended) at the two sample operations, position 0. -/
theorem defaultTable_shows_state_not_failure_reason_witness :
    defaultDBMigrationOperationTableData utcTimeFormat
        [some sampleFailedOperation, some sampleSucceededOperation] =
      some (["ID", "INSTALLATION ID", "STATE", "REQUEST AT"],
        [["op-1", "inst-1", "failed", "2020-09-13 12:26:40 +0000 UTC"],
         ["op-2", "inst-2", "succeeded", "1970-01-01 00:00:00 +0000 UTC"]]) ∧
    ∃ row,
      [["op-1", "inst-1", "failed", "2020-09-13 12:26:40 +0000 UTC"],
       ["op-2", "inst-2", "succeeded", "1970-01-01 00:00:00 +0000 UTC"]][0]? = some row ∧
      row = [sampleFailedOperation.ID, sampleFailedOperation.InstallationID,
        sampleFailedOperation.State, utcTimeFormat sampleFailedOperation.RequestAt] ∧
      sampleFailedOperation.State ∈ row :=
  ⟨by decide,
   ((defaultTable_shows_state_not_failure_reason utcTimeFormat
      [some sampleFailedOperation, some sampleSucceededOperation]).1
        ["ID", "INSTALLATION ID", "STATE", "REQUEST AT"]
        [["op-1", "inst-1", "failed", "2020-09-13 12:26:40 +0000 UTC"],
         ["op-2", "inst-2", "succeeded", "1970-01-01 00:00:00 +0000 UTC"]] (by decide)).2
        0 sampleFailedOperation rfl⟩

/-- C5: the default table reads nothing but ID, InstallationID, State and RequestAt.
For two lists of operations of equal length whose corresponding operations agree
on these four fields, the function returns for both, with identical keys and rows,
whatever the other fields (failure reason, version, lock owner, lock time,
destination) are; and the keys are exactly ID, INSTALLATION ID, STATE, REQUEST AT. -/
theorem defaultTable_hides_internal_fields (timeFormat : Int → String)
    (xs ys : List InstallationDBMigrationOperation)
    (h : List.Forall₂ SameDisplayedFields xs ys) :
    defaultDBMigrationOperationTableData timeFormat (xs.map some) =
      defaultDBMigrationOperationTableData timeFormat (ys.map some) ∧
    ∃ rows,
      defaultDBMigrationOperationTableData timeFormat (xs.map some) =
        some (["ID", "INSTALLATION ID", "STATE", "REQUEST AT"], rows) ∧
      defaultDBMigrationOperationTableData timeFormat (ys.map some) =
        some (["ID", "INSTALLATION ID", "STATE", "REQUEST AT"], rows) := by
  refine ⟨?_, xs.map (tableRow timeFormat), ?_, ?_⟩
  · rw [defaultTable_of_some, defaultTable_of_some, map_tableRow_congr timeFormat xs ys h]
  · rw [defaultTable_of_some]
  · rw [defaultTable_of_some, map_tableRow_congr timeFormat xs ys h]

/-- Witness of C5: the sample operation and a copy with another version, lock owner,
lock time and failure reason give the same table. -/
theorem defaultTable_hides_internal_fields_witness :
    List.Forall₂ SameDisplayedFields [sampleFailedOperation] [sampleRelockedOperation] ∧
    defaultDBMigrationOperationTableData utcTimeFormat ([sampleFailedOperation].map some) =
      defaultDBMigrationOperationTableData utcTimeFormat
        ([sampleRelockedOperation].map some) :=
  ⟨List.Forall₂.cons ⟨rfl, rfl, rfl, rfl⟩ List.Forall₂.nil,
   (defaultTable_hides_internal_fields utcTimeFormat _ _
     (List.Forall₂.cons ⟨rfl, rfl, rfl, rfl⟩ List.Forall₂.nil)).1⟩

/-- C6 (as stated, refuted): on a slice whose second element is nil the function
does not return two rows, it panics; the list command run with `--table=true`
against a server that answers with such a slice makes its call, prints nothing and
panics. -/
theorem defaultTable_panics_on_nil_element :
    defaultDBMigrationOperationTableData utcTimeFormat [some sampleFailedOperation, none] =
      none ∧
    FlagSet.ParseFlags
      (FlagSet.InitDefaultHelpFlag
        (installationDBMigrationsListCmd_Flags sampleRegistered sampleInherited))
      [("table", "true")] = Except.ok sampleTableFlags ∧
    installationDBMigrationsListCmd_RunE sampleNullEnv sampleTableFlags =
      { trace :=
          [Effect.call "http://localhost:8075"
             (ClientCall.GetInstallationDBMigrationOperations
               { Paging := { Page := 0, PerPage := 100 }, InstallationID := "", State := "" })]
        err := none
        panicked := true } :=
  ⟨by decide, rfl, by decide⟩

/-- C6 (amended): the default table keeps the operations in the order received. For
every list `ops` of operations (no nil element) the function returns the fixed
header and exactly `ops.length` rows, the row at every position `i` is ID,
InstallationID, State and formatted RequestAt of `ops[i]` (and there is no row
where there is no operation); the empty list gives the header with zero rows; and
the list command, when the client succeeds with these operations and table output
is enabled without custom columns, makes its call and then prints exactly this
table. -/
theorem defaultTable_preserves_order (env : Env)
    (ops : List InstallationDBMigrationOperation) :
    (∃ rows,
      defaultDBMigrationOperationTableData env.timeFormat (ops.map some) =
        some (["ID", "INSTALLATION ID", "STATE", "REQUEST AT"], rows) ∧
      rows.length = ops.length ∧
      ∀ i : Nat, rows[i]? =
        (ops[i]?).map (fun (op : InstallationDBMigrationOperation) =>
          [op.ID, op.InstallationID, op.State, env.timeFormat op.RequestAt])) ∧
    defaultDBMigrationOperationTableData env.timeFormat [] =
      some (["ID", "INSTALLATION ID", "STATE", "REQUEST AT"], []) ∧
    (∀ flags,
      (env.NewClient (FlagSet.GetString flags "server")).GetInstallationDBMigrationOperations
          (listRequestOf env flags) = (ops.map some, none) →
      env.tableOutputEnabled flags = (true, []) →
      installationDBMigrationsListCmd_RunE env flags =
        { trace :=
            [Effect.call (FlagSet.GetString flags "server")
               (ClientCall.GetInstallationDBMigrationOperations (listRequestOf env flags)),
             Effect.printTable ["ID", "INSTALLATION ID", "STATE", "REQUEST AT"]
               (ops.map (fun (op : InstallationDBMigrationOperation) =>
                 [op.ID, op.InstallationID, op.State, env.timeFormat op.RequestAt]))]
          err := none }) := by
  refine ⟨⟨ops.map (tableRow env.timeFormat), defaultTable_of_some _ _, by simp, ?_⟩, rfl, ?_⟩
  · intro i
    simp only [List.getElem?_map]
    rfl
  · intro flags hc ht
    simp only [installationDBMigrationsListCmd_RunE, hc, ht, defaultTable_of_some]
    simp [tableRow]

/-- Witness of C6 (amended): in the sample environment the list command run with
`--table=true` prints the two sample operations in the order the client returned
them. -/
theorem defaultTable_preserves_order_witness :
    installationDBMigrationsListCmd_RunE sampleEnv sampleTableFlags =
      { trace :=
          [Effect.call "http://localhost:8075"
             (ClientCall.GetInstallationDBMigrationOperations
               { Paging := { Page := 0, PerPage := 100 }, InstallationID := "", State := "" }),
           Effect.printTable ["ID", "INSTALLATION ID", "STATE", "REQUEST AT"]
             [["op-1", "inst-1", "failed", "2020-09-13 12:26:40 +0000 UTC"],
              ["op-2", "inst-2", "succeeded", "1970-01-01 00:00:00 +0000 UTC"]]]
        err := none } :=
  (defaultTable_preserves_order sampleEnv
    [sampleFailedOperation, sampleSucceededOperation]).2.2 sampleTableFlags rfl rfl

/-! ## Declared flag sets -/

theorem requestFlags_shape (destinationDefault : String) (inherited : FlagSet) :
    ∃ rest,
      installationDBMigrationRequestCmd_Flags destinationDefault inherited =
        { Name := "installation", Value := FlagValue.string "", Changed := false,
          Required := true } ::
        { Name := "destination-db", Value := FlagValue.string destinationDefault,
          Changed := false, Required := false } ::
        { Name := "multi-tenant-db", Value := FlagValue.string "", Changed := false,
          Required := true } :: rest ∧
      (∀ g ∈ rest, g ∈ inherited) ∧
      (∀ n, n ≠ "installation" → n ≠ "destination-db" → n ≠ "multi-tenant-db" →
        FlagSet.Lookup rest n = FlagSet.Lookup inherited n) := by
  obtain ⟨rest, h1, h2, h3⟩ := AddFlagSet_spec inherited
    [{ Name := "installation", Value := FlagValue.string "", Changed := false,
       Required := true },
     { Name := "destination-db", Value := FlagValue.string destinationDefault,
       Changed := false, Required := false },
     { Name := "multi-tenant-db", Value := FlagValue.string "", Changed := false,
       Required := true }]
  refine ⟨rest, ?_, fun g hg => (h2 g hg).1, ?_⟩
  · simpa [installationDBMigrationRequestCmd_Flags, FlagSet.StringFlag,
      FlagSet.MarkFlagRequired] using h1
  · intro n hn1 hn2 hn3
    apply h3
    simp [FlagSet.Lookup, Ne.symm hn1, Ne.symm hn2, Ne.symm hn3]

theorem listFlags_shape (registered inherited : FlagSet) :
    ∃ rest,
      installationDBMigrationsListCmd_Flags registered inherited =
        { Name := "installation", Value := FlagValue.string "", Changed := false,
          Required := false } ::
        { Name := "state", Value := FlagValue.string "", Changed := false,
          Required := false } :: rest ∧
      (∀ g ∈ rest, g.Name ≠ "installation" ∧ g.Name ≠ "state") := by
  obtain ⟨r1, h1, h2, _⟩ := AddFlagSet_spec registered
    [{ Name := "installation", Value := FlagValue.string "", Changed := false,
       Required := false },
     { Name := "state", Value := FlagValue.string "", Changed := false, Required := false }]
  obtain ⟨r2, k1, k2, _⟩ := AddFlagSet_spec inherited
    ([{ Name := "installation", Value := FlagValue.string "", Changed := false,
        Required := false },
      { Name := "state", Value := FlagValue.string "", Changed := false,
        Required := false }] ++ r1)
  have own : ∀ g : Flag,
      FlagSet.Lookup
        [{ Name := "installation", Value := FlagValue.string "", Changed := false,
           Required := false },
         { Name := "state", Value := FlagValue.string "", Changed := false,
           Required := false }] g.Name = none →
      g.Name ≠ "installation" ∧ g.Name ≠ "state" := by
    intro g hg
    constructor
    · intro e
      simp [FlagSet.Lookup, e] at hg
    · intro e
      simp [FlagSet.Lookup, e] at hg
  refine ⟨r1 ++ r2, ?_, ?_⟩
  · simp only [installationDBMigrationsListCmd_Flags, FlagSet.StringFlag, List.nil_append,
      List.cons_append, List.singleton_append] at *
    rw [h1, k1]
  · intro g hg
    rcases List.mem_append.1 hg with hg | hg
    · exact own g (h2 g hg).2
    · exact own g (Lookup_none_of_append (k2 g hg).2)

theorem Lookup_append_singleton_ne (fs : FlagSet) (f : Flag) (n : String)
    (h : f.Name ≠ n) : FlagSet.Lookup (fs ++ [f]) n = FlagSet.Lookup fs n := by
  cases hl : FlagSet.Lookup fs n with
  | some g => exact Lookup_append_of_some hl
  | none =>
    rw [Lookup_append_of_none hl]
    simp [FlagSet.Lookup, h]

/-- Shape of the request command's flag set once cobra has declared the help flag. -/
theorem requestFlags_help_shape (destinationDefault : String) (inherited : FlagSet) :
    ∃ rest,
      FlagSet.InitDefaultHelpFlag
          (installationDBMigrationRequestCmd_Flags destinationDefault inherited) =
        { Name := "installation", Value := FlagValue.string "", Changed := false,
          Required := true } ::
        { Name := "destination-db", Value := FlagValue.string destinationDefault,
          Changed := false, Required := false } ::
        { Name := "multi-tenant-db", Value := FlagValue.string "", Changed := false,
          Required := true } :: rest ∧
      (∀ g ∈ rest, g ∈ inherited ∨ g = helpFlag) ∧
      (∀ n, n ≠ "installation" → n ≠ "destination-db" → n ≠ "multi-tenant-db" →
        n ≠ "help" → FlagSet.Lookup rest n = FlagSet.Lookup inherited n) ∧
      (FlagSet.Lookup inherited "help" = none →
        FlagSet.Lookup rest "help" = some helpFlag) := by
  obtain ⟨rest0, hshape, hmem, hlook⟩ := requestFlags_shape destinationDefault inherited
  have hhelp0 : FlagSet.Lookup rest0 "help" = FlagSet.Lookup inherited "help" :=
    hlook "help" (by decide) (by decide) (by decide)
  have hown : FlagSet.Lookup
      (installationDBMigrationRequestCmd_Flags destinationDefault inherited) "help" =
      FlagSet.Lookup rest0 "help" := by
    rw [hshape]
    simp [FlagSet.Lookup]
  cases hl : FlagSet.Lookup rest0 "help" with
  | some g =>
    refine ⟨rest0, ?_, fun g hg => Or.inl (hmem g hg), ?_, ?_⟩
    · rw [FlagSet.InitDefaultHelpFlag, hown, hl]
      exact hshape
    · intro n h1 h2 h3 _
      exact hlook n h1 h2 h3
    · intro hnone
      rw [← hhelp0, hl] at hnone
      cases hnone
  | none =>
    refine ⟨rest0 ++ [helpFlag], ?_, ?_, ?_, ?_⟩
    · rw [FlagSet.InitDefaultHelpFlag, hown, hl]
      simp only [hshape, List.cons_append]
      rfl
    · intro g hg
      rcases List.mem_append.1 hg with hg | hg
      · exact Or.inl (hmem g hg)
      · exact Or.inr (by simpa using hg)
    · intro n h1 h2 h3 h4
      rw [Lookup_append_singleton_ne rest0 helpFlag n (by simpa [helpFlag] using Ne.symm h4)]
      exact hlook n h1 h2 h3
    · intro _
      rw [Lookup_append_of_none hl]
      simp [FlagSet.Lookup, helpFlag]

/-! ## The request command -/

theorem requestCmd_calls (env : Env) (flags : FlagSet)
    (h : FlagSet.GetBool flags "dry-run" = false) :
    clientCalls (installationDBMigrationRequestCmd_RunE env flags).trace =
      [(FlagSet.GetString flags "server",
        ClientCall.MigrateInstallationDatabase (migrationRequestOf flags))] := by
  simp only [installationDBMigrationRequestCmd_RunE, h]
  rcases hc : (env.NewClient (FlagSet.GetString flags "server")).MigrateInstallationDatabase
    (migrationRequestOf flags) with ⟨op, _ | e⟩
  · cases hp : env.printJSON (Payload.operation op) <;> simp [clientCalls, hp]
  · simp [clientCalls]

/-- C1: without dry-run the request command makes exactly one client call, it is
`MigrateInstallationDatabase`, and the request sent has InstallationID,
DestinationDatabase and DestinationMultiTenant.DatabaseID equal to the flags
installation, destination-db and multi-tenant-db, the pointer being non-nil. The
second part runs the command from the command line: whatever values `i`, `d`, `m`
are given for the three flags, the one call made carries exactly `i`, `d`, `m`
(the root command declares no required persistent flag and no flag named help, so
that cobra's own help flag is in force and is not set by this command line). -/
theorem request_sends_flag_values (env : Env) :
    (∀ flags, FlagSet.GetBool flags "dry-run" = false →
      clientCalls (installationDBMigrationRequestCmd_RunE env flags).trace =
        [(FlagSet.GetString flags "server",
          ClientCall.MigrateInstallationDatabase
            { InstallationID := FlagSet.GetString flags "installation"
              DestinationDatabase := FlagSet.GetString flags "destination-db"
              DestinationMultiTenant :=
                some { DatabaseID := FlagSet.GetString flags "multi-tenant-db" } })]) ∧
    (∀ (destinationDefault : String) (inherited : FlagSet) (i d m : String),
      (∀ f ∈ inherited, f.Required = false) →
      FlagSet.GetBool inherited "dry-run" = false →
      FlagSet.Lookup inherited "help" = none →
      clientCalls
          (execute (installationDBMigrationRequestCmd_Flags destinationDefault inherited)
            (installationDBMigrationRequestCmd_RunE env)
            [("installation", i), ("destination-db", d), ("multi-tenant-db", m)]).trace =
        [(FlagSet.GetString inherited "server",
          ClientCall.MigrateInstallationDatabase
            { InstallationID := i, DestinationDatabase := d,
              DestinationMultiTenant := some { DatabaseID := m } })]) := by
  have hA := requestCmd_calls env
  refine ⟨fun flags h => by simpa [migrationRequestOf] using hA flags h, ?_⟩
  intro destinationDefault inherited i d m hreq hdry hnohelp
  obtain ⟨rest, hshape, hmem, hlook, hhelp⟩ :=
    requestFlags_help_shape destinationDefault inherited
  have hrest : FlagSet.missingRequired rest = [] :=
    missingRequired_of_not_required (fun f hf => by
      rcases hmem f hf with h | h
      · exact hreq f h
      · rw [h]; rfl)
  have hmiss : FlagSet.ValidateRequiredFlags
      ({ Name := "installation", Value := FlagValue.string i, Changed := true,
         Required := true } ::
       { Name := "destination-db", Value := FlagValue.string d, Changed := true,
         Required := false } ::
       { Name := "multi-tenant-db", Value := FlagValue.string m, Changed := true,
         Required := true } :: rest) = none := by
    rw [ValidateRequiredFlags_eq_none]
    simpa [FlagSet.missingRequired] using hrest
  have hserver : FlagSet.Lookup rest "server" = FlagSet.Lookup inherited "server" :=
    hlook "server" (by decide) (by decide) (by decide) (by decide)
  have hdryrun : FlagSet.Lookup rest "dry-run" = FlagSet.Lookup inherited "dry-run" :=
    hlook "dry-run" (by decide) (by decide) (by decide) (by decide)
  have hparse : FlagSet.ParseFlags
      (FlagSet.InitDefaultHelpFlag
        (installationDBMigrationRequestCmd_Flags destinationDefault inherited))
      [("installation", i), ("destination-db", d), ("multi-tenant-db", m)] =
      Except.ok
        ({ Name := "installation", Value := FlagValue.string i, Changed := true,
           Required := true } ::
         { Name := "destination-db", Value := FlagValue.string d, Changed := true,
           Required := false } ::
         { Name := "multi-tenant-db", Value := FlagValue.string m, Changed := true,
           Required := true } :: rest) := by
    rw [hshape]
    simp [FlagSet.ParseFlags, FlagSet.Set]
  have hnot : FlagSet.GetBoolChecked
      ({ Name := "installation", Value := FlagValue.string i, Changed := true,
         Required := true } ::
       { Name := "destination-db", Value := FlagValue.string d, Changed := true,
         Required := false } ::
       { Name := "multi-tenant-db", Value := FlagValue.string m, Changed := true,
         Required := true } :: rest) "help" = Except.ok false := by
    simp [FlagSet.GetBoolChecked, FlagSet.Lookup, hhelp hnohelp, helpFlag]
  simp only [execute, hparse, hnot, hmiss]
  rw [hA]
  · simp [FlagSet.GetString, FlagSet.Lookup, migrationRequestOf, hserver]
  · simpa [FlagSet.GetBool, FlagSet.Lookup, hdryrun] using hdry

/-- Witness of C1: the request command run from the command line with values for the
three flags, in the sample environment. -/
theorem request_sends_flag_values_witness :
    (∀ f ∈ sampleInherited, f.Required = false) ∧
    FlagSet.GetBool sampleInherited "dry-run" = false ∧
    FlagSet.Lookup sampleInherited "help" = none ∧
    clientCalls
        (execute (installationDBMigrationRequestCmd_Flags "aws-multitenant-rds-postgres"
            sampleInherited)
          (installationDBMigrationRequestCmd_RunE sampleEnv)
          [("installation", "inst-1"), ("destination-db", "aws-multitenant-rds-postgres"),
           ("multi-tenant-db", "db-1")]).trace =
      [(FlagSet.GetString sampleInherited "server",
        ClientCall.MigrateInstallationDatabase
          { InstallationID := "inst-1", DestinationDatabase := "aws-multitenant-rds-postgres",
            DestinationMultiTenant := some { DatabaseID := "db-1" } })] :=
  ⟨by decide, by decide, by decide,
   (request_sends_flag_values sampleEnv).2 "aws-multitenant-rds-postgres" sampleInherited
     "inst-1" "aws-multitenant-rds-postgres" "db-1" (by decide) (by decide) (by decide)⟩

/-- C10: with dry-run set the request command makes no client call at all; its only
effect is one `printJSON` of the request built from the flags installation,
destination-db and multi-tenant-db; the error returned is nil when printing
succeeds and the wrapped printing error otherwise; and a run without dry-run on
flags with the same three values sends exactly the request printed here. -/
theorem request_dry_run_sends_nothing (env : Env) (flags : FlagSet)
    (h : FlagSet.GetBool flags "dry-run" = true) :
    clientCalls (installationDBMigrationRequestCmd_RunE env flags).trace = [] ∧
    (installationDBMigrationRequestCmd_RunE env flags).trace =
      [Effect.printJSON (Payload.request
        { InstallationID := FlagSet.GetString flags "installation"
          DestinationDatabase := FlagSet.GetString flags "destination-db"
          DestinationMultiTenant :=
            some { DatabaseID := FlagSet.GetString flags "multi-tenant-db" } })] ∧
    (installationDBMigrationRequestCmd_RunE env flags).err =
      (env.printJSON (Payload.request (migrationRequestOf flags))).map
        (fun e => GoError.wrap e "failed to print API request") ∧
    (∀ live : FlagSet, FlagSet.GetBool live "dry-run" = false →
      FlagSet.GetString live "installation" = FlagSet.GetString flags "installation" →
      FlagSet.GetString live "destination-db" = FlagSet.GetString flags "destination-db" →
      FlagSet.GetString live "multi-tenant-db" = FlagSet.GetString flags "multi-tenant-db" →
      ∃ request,
        (installationDBMigrationRequestCmd_RunE env flags).trace =
          [Effect.printJSON (Payload.request request)] ∧
        clientCalls (installationDBMigrationRequestCmd_RunE env live).trace =
          [(FlagSet.GetString live "server",
            ClientCall.MigrateInstallationDatabase request)]) := by
  have htrace : (installationDBMigrationRequestCmd_RunE env flags).trace =
      [Effect.printJSON (Payload.request (migrationRequestOf flags))] := by
    simp only [installationDBMigrationRequestCmd_RunE, h]
    cases hp : env.printJSON (Payload.request (migrationRequestOf flags)) <;> simp
  refine ⟨?_, ?_, ?_, ?_⟩
  · rw [htrace]
    rfl
  · rw [htrace]
    rfl
  · simp only [installationDBMigrationRequestCmd_RunE, h]
    cases hp : env.printJSON (Payload.request (migrationRequestOf flags)) <;> simp
  · intro live hlive h1 h2 h3
    refine ⟨migrationRequestOf flags, htrace, ?_⟩
    rw [requestCmd_calls env live hlive]
    simp [migrationRequestOf, h1, h2, h3]

/-- Witness of C10: the sample command line with `--dry-run=true`. -/
theorem request_dry_run_sends_nothing_witness :
    FlagSet.ParseFlags
      (FlagSet.InitDefaultHelpFlag
        (installationDBMigrationRequestCmd_Flags "aws-multitenant-rds-postgres"
          sampleInherited))
      [("installation", "inst-1"), ("multi-tenant-db", "db-1"), ("dry-run", "true")] =
        Except.ok sampleDryRunFlags ∧
    FlagSet.GetBool sampleDryRunFlags "dry-run" = true ∧
    clientCalls (installationDBMigrationRequestCmd_RunE sampleEnv sampleDryRunFlags).trace = [] ∧
    (installationDBMigrationRequestCmd_RunE sampleEnv sampleDryRunFlags).trace =
      [Effect.printJSON (Payload.request
        { InstallationID := "inst-1", DestinationDatabase := "aws-multitenant-rds-postgres"
          DestinationMultiTenant := some { DatabaseID := "db-1" } })] :=
  ⟨rfl, by decide,
   (request_dry_run_sends_nothing sampleEnv sampleDryRunFlags (by decide)).1,
   (request_dry_run_sends_nothing sampleEnv sampleDryRunFlags (by decide)).2.1⟩

/-- C2 (as stated, refuted): the request command run with an installation id and no
multi-tenant-db id is rejected before its body runs: the required flag
`multi-tenant-db` is reported as not set and no client call is made. -/
theorem request_without_database_id_rejected :
    execute (installationDBMigrationRequestCmd_Flags "aws-multitenant-rds-postgres"
        sampleInherited)
      (installationDBMigrationRequestCmd_RunE sampleEnv) [("installation", "inst-1")] =
      { trace := []
        err := some (GoError.new "required flag(s) \"multi-tenant-db\" not set") } := by
  decide

/-- C2 (amended): the request command requires both the installation id and the
multi-tenant-db id. For every command line that parses, the required-flag check
passes exactly when both `installation` and `multi-tenant-db` are supplied
(`destination-db` is optional and has a default). If the command line asks for
help, the help text is written and nil is returned without check or body.
Otherwise: when both are supplied the body runs on the parsed flags; when one or
both are missing the command makes no client call, prints nothing and returns the
error that names exactly the missing ones. The inherited persistent flags are
assumed not required. -/
theorem request_requires_installation_and_database (env : Env)
    (destinationDefault : String) (inherited : FlagSet)
    (args : List (String × String)) (parsed : FlagSet)
    (hinh : ∀ f ∈ inherited, f.Required = false)
    (hp : FlagSet.ParseFlags
      (FlagSet.InitDefaultHelpFlag
        (installationDBMigrationRequestCmd_Flags destinationDefault inherited)) args =
        Except.ok parsed) :
    (FlagSet.ValidateRequiredFlags parsed = none ↔
      (∃ v, ("installation", v) ∈ args) ∧ (∃ v, ("multi-tenant-db", v) ∈ args)) ∧
    (FlagSet.GetBoolChecked parsed "help" = Except.ok true →
      execute (installationDBMigrationRequestCmd_Flags destinationDefault inherited)
        (installationDBMigrationRequestCmd_RunE env) args =
          { trace := [Effect.help], err := none }) ∧
    (FlagSet.GetBoolChecked parsed "help" = Except.ok false →
      ((∃ v, ("installation", v) ∈ args) → (∃ v, ("multi-tenant-db", v) ∈ args) →
        execute (installationDBMigrationRequestCmd_Flags destinationDefault inherited)
          (installationDBMigrationRequestCmd_RunE env) args =
            installationDBMigrationRequestCmd_RunE env parsed) ∧
      ((∃ v, ("installation", v) ∈ args) → (∀ v, ("multi-tenant-db", v) ∉ args) →
        execute (installationDBMigrationRequestCmd_Flags destinationDefault inherited)
          (installationDBMigrationRequestCmd_RunE env) args =
            { trace := []
              err := some (GoError.new "required flag(s) \"multi-tenant-db\" not set") }) ∧
      ((∀ v, ("installation", v) ∉ args) → (∃ v, ("multi-tenant-db", v) ∈ args) →
        execute (installationDBMigrationRequestCmd_Flags destinationDefault inherited)
          (installationDBMigrationRequestCmd_RunE env) args =
            { trace := []
              err := some (GoError.new "required flag(s) \"installation\" not set") }) ∧
      ((∀ v, ("installation", v) ∉ args) → (∀ v, ("multi-tenant-db", v) ∉ args) →
        execute (installationDBMigrationRequestCmd_Flags destinationDefault inherited)
          (installationDBMigrationRequestCmd_RunE env) args =
            { trace := []
              err := some (GoError.new
                "required flag(s) \"installation\", \"multi-tenant-db\" not set") })) := by
  obtain ⟨rest, hshape, hmem, _, _⟩ := requestFlags_help_shape destinationDefault inherited
  have hall := ParseFlags_shape hp
  rw [hshape] at hall
  obtain ⟨a, t1, ha, hall1, e1⟩ := List.forall₂_cons_left_iff.1 hall
  obtain ⟨b, t2, hb, hall2, e2⟩ := List.forall₂_cons_left_iff.1 hall1
  obtain ⟨c, t3, hc, hall3, e3⟩ := List.forall₂_cons_left_iff.1 hall2
  subst e3 e2
  have hrest : FlagSet.missingRequired t3 = [] :=
    missingRequired_of_not_required
      (Forall₂_ParseStep_not_required hall3 (fun f hf => by
        rcases hmem f hf with h | h
        · exact hinh f h
        · rw [h]; rfl))
  obtain ⟨han, har, hac⟩ := ha
  obtain ⟨hbn, hbr, _⟩ := hb
  obtain ⟨hcn, hcr, hcc⟩ := hc
  simp only at han har hac hbn hbr hcn hcr hcc
  have hsplit : FlagSet.missingRequired parsed =
      (if a.Changed then [] else ["installation"]) ++
        (if c.Changed then [] else ["multi-tenant-db"]) := by
    have h0 : FlagSet.missingRequired parsed =
        (if a.Changed then [] else [a.Name]) ++ (if c.Changed then [] else [c.Name]) ++
          FlagSet.missingRequired t3 := by
      rw [e1]
      cases hca : a.Changed <;> cases hcc1 : c.Changed <;>
        simp [FlagSet.missingRequired, List.filter_cons, har, hbr, hcr, hca, hcc1]
    rw [h0, hrest, han, hcn, List.append_nil]
  have hia : a.Changed = true ↔ ∃ v, ("installation", v) ∈ args := by
    constructor
    · intro h1
      rcases hac h1 with h | h
      · cases h
      · exact h
    · rintro ⟨v, hv⟩
      obtain ⟨g1, hg1, hgc1⟩ := ParseFlags_lookup_supplied hp hv
      rw [e1] at hg1
      simp only [FlagSet.Lookup, han, if_true, Option.some.injEq] at hg1
      subst hg1
      exact hgc1
  have hic : c.Changed = true ↔ ∃ v, ("multi-tenant-db", v) ∈ args := by
    constructor
    · intro h2
      rcases hcc h2 with h | h
      · cases h
      · exact h
    · rintro ⟨w, hw⟩
      obtain ⟨g2, hg2, hgc2⟩ := ParseFlags_lookup_supplied hp hw
      rw [e1] at hg2
      have hba : ¬ a.Name = "multi-tenant-db" := by rw [han]; decide
      have hbb : ¬ b.Name = "multi-tenant-db" := by rw [hbn]; decide
      simp only [FlagSet.Lookup, hba, hbb, hcn, if_true, if_false, Option.some.injEq] at hg2
      subst hg2
      exact hgc2
  have hna : (∀ v, ("installation", v) ∉ args) → a.Changed = false := by
    intro h
    cases hca : a.Changed with
    | false => rfl
    | true =>
      obtain ⟨v, hv⟩ := hia.1 hca
      exact absurd hv (h v)
  have hnc : (∀ v, ("multi-tenant-db", v) ∉ args) → c.Changed = false := by
    intro h
    cases hcc1 : c.Changed with
    | false => rfl
    | true =>
      obtain ⟨v, hv⟩ := hic.1 hcc1
      exact absurd hv (h v)
  have hiff : FlagSet.ValidateRequiredFlags parsed = none ↔
      (∃ v, ("installation", v) ∈ args) ∧ (∃ v, ("multi-tenant-db", v) ∈ args) := by
    rw [ValidateRequiredFlags_eq_none, hsplit, ← hia, ← hic]
    cases hca : a.Changed <;> cases hcc1 : c.Changed <;> simp
  refine ⟨hiff, ?_, ?_⟩
  · intro hhelp
    simp only [execute, hp, hhelp]
  · intro hhelp
    refine ⟨?_, ?_, ?_, ?_⟩
    · intro h1 h2
      simp only [execute, hp, hhelp, hiff.2 ⟨h1, h2⟩]
    · intro h1 h2
      have hv : FlagSet.ValidateRequiredFlags parsed =
          some (GoError.new "required flag(s) \"multi-tenant-db\" not set") := by
        unfold FlagSet.ValidateRequiredFlags
        rw [hsplit, hia.2 h1, hnc h2]
        rfl
      simp only [execute, hp, hhelp, hv]
    · intro h1 h2
      have hv : FlagSet.ValidateRequiredFlags parsed =
          some (GoError.new "required flag(s) \"installation\" not set") := by
        unfold FlagSet.ValidateRequiredFlags
        rw [hsplit, hna h1, hic.2 h2]
        rfl
      simp only [execute, hp, hhelp, hv]
    · intro h1 h2
      have hv : FlagSet.ValidateRequiredFlags parsed =
          some (GoError.new
            "required flag(s) \"installation\", \"multi-tenant-db\" not set") := by
        unfold FlagSet.ValidateRequiredFlags
        rw [hsplit, hna h1, hnc h2]
        rfl
      simp only [execute, hp, hhelp, hv]

/-- Witness of C2 (amended): the command line that supplies both required flags
passes the check, and the command line that asks for help gets the help text. -/
theorem request_requires_installation_and_database_witness :
    (∀ f ∈ sampleInherited, f.Required = false) ∧
    FlagSet.ParseFlags
      (FlagSet.InitDefaultHelpFlag
        (installationDBMigrationRequestCmd_Flags "aws-multitenant-rds-postgres"
          sampleInherited))
      [("installation", "inst-1"), ("multi-tenant-db", "db-1")] =
        Except.ok sampleParsedRequestFlags ∧
    (FlagSet.ValidateRequiredFlags sampleParsedRequestFlags = none ↔
      (∃ v, ("installation", v) ∈ [("installation", "inst-1"), ("multi-tenant-db", "db-1")]) ∧
      (∃ v, ("multi-tenant-db", v) ∈
        [("installation", "inst-1"), ("multi-tenant-db", "db-1")])) ∧
    execute (installationDBMigrationRequestCmd_Flags "aws-multitenant-rds-postgres"
        sampleInherited)
      (installationDBMigrationRequestCmd_RunE sampleEnv) [("help", "true")] =
        { trace := [Effect.help], err := none } :=
  ⟨by decide, rfl,
   (request_requires_installation_and_database sampleEnv "aws-multitenant-rds-postgres"
     sampleInherited [("installation", "inst-1"), ("multi-tenant-db", "db-1")]
     sampleParsedRequestFlags (by decide) rfl).1,
   (request_requires_installation_and_database sampleEnv "aws-multitenant-rds-postgres"
     sampleInherited [("help", "true")] sampleHelpFlags (by decide) rfl).2.1 rfl⟩

/-! ## The list command -/

theorem listFlags_help_shape (registered inherited : FlagSet) :
    ∃ rest,
      FlagSet.InitDefaultHelpFlag
          (installationDBMigrationsListCmd_Flags registered inherited) =
        { Name := "installation", Value := FlagValue.string "", Changed := false,
          Required := false } ::
        { Name := "state", Value := FlagValue.string "", Changed := false,
          Required := false } :: rest ∧
      (∀ g ∈ rest, g.Name ≠ "installation" ∧ g.Name ≠ "state") := by
  obtain ⟨rest0, hshape, hnames⟩ := listFlags_shape registered inherited
  unfold FlagSet.InitDefaultHelpFlag
  cases hl : FlagSet.Lookup (installationDBMigrationsListCmd_Flags registered inherited)
      "help" with
  | some g => exact ⟨rest0, hshape, hnames⟩
  | none =>
    refine ⟨rest0 ++ [helpFlag], ?_, ?_⟩
    · simp only [hshape, List.cons_append]
      rfl
    · intro g hg
      rcases List.mem_append.1 hg with hg | hg
      · exact hnames g hg
      · have hgh : g = helpFlag := by simpa using hg
        rw [hgh]
        exact ⟨by decide, by decide⟩

theorem list_filters_optional (declared rest : FlagSet)
    (hshape : declared =
      { Name := "installation", Value := FlagValue.string "", Changed := false,
        Required := false } ::
      { Name := "state", Value := FlagValue.string "", Changed := false,
        Required := false } :: rest)
    (hnames : ∀ g ∈ rest, g.Name ≠ "installation" ∧ g.Name ≠ "state")
    (args : List (String × String)) (parsed : FlagSet)
    (hp : FlagSet.ParseFlags declared args = Except.ok parsed) :
    ((∀ v, ("installation", v) ∉ args) → FlagSet.GetString parsed "installation" = "") ∧
    ((∀ v, ("state", v) ∉ args) → FlagSet.GetString parsed "state" = "") ∧
    "installation" ∉ FlagSet.missingRequired parsed ∧
    "state" ∉ FlagSet.missingRequired parsed := by
  have hall := ParseFlags_shape hp
  rw [hshape] at hall hp
  obtain ⟨a, t1, ha, hall1, e1⟩ := List.forall₂_cons_left_iff.1 hall
  obtain ⟨b, t2, hb, hall2, e2⟩ := List.forall₂_cons_left_iff.1 hall1
  subst e2
  obtain ⟨han, har, _⟩ := ha
  obtain ⟨hbn, hbr, _⟩ := hb
  simp only at han har hbn hbr
  have hrest : ∀ f ∈ t2, f.Name ≠ "installation" ∧ f.Name ≠ "state" :=
    Forall₂_ParseStep_names (fun n => n ≠ "installation" ∧ n ≠ "state") hall2 hnames
  refine ⟨?_, ?_, ?_, ?_⟩
  · intro hno
    rw [FlagSet.GetString, ParseFlags_lookup_not_supplied hp hno]
    simp [FlagSet.Lookup]
  · intro hno
    rw [FlagSet.GetString, ParseFlags_lookup_not_supplied hp hno]
    simp [FlagSet.Lookup]
  · rw [e1]
    simp only [FlagSet.missingRequired, List.mem_map, List.mem_filter, not_exists, not_and]
    rintro f ⟨hf, hmiss⟩ hname
    rcases List.mem_cons.1 hf with e | hf
    · subst e
      simp [har] at hmiss
    · rcases List.mem_cons.1 hf with e | hf
      · subst e
        simp [hbr] at hmiss
      · exact (hrest f hf).1 hname
  · rw [e1]
    simp only [FlagSet.missingRequired, List.mem_map, List.mem_filter, not_exists, not_and]
    rintro f ⟨hf, hmiss⟩ hname
    rcases List.mem_cons.1 hf with e | hf
    · subst e
      simp [har] at hmiss
    · rcases List.mem_cons.1 hf with e | hf
      · subst e
        simp [hbr] at hmiss
      · exact (hrest f hf).2 hname

/-- C7: the list command makes exactly one client call, it is
`GetInstallationDBMigrationOperations`, and its request has InstallationID equal
to the installation flag, State equal to the state flag and Paging equal to the
parsed paging flags. Both filters are optional: on every command line that parses,
a filter that is not supplied is read as the empty string, and neither filter is
ever reported as a missing required flag; this holds for the flags as declared by
`init` and for the same flags with cobra's help flag added. -/
theorem list_sends_filters (env : Env) :
    (∀ flags,
      clientCalls (installationDBMigrationsListCmd_RunE env flags).trace =
        [(FlagSet.GetString flags "server",
          ClientCall.GetInstallationDBMigrationOperations
            { Paging := env.parsePagingFlags flags
              InstallationID := FlagSet.GetString flags "installation"
              State := FlagSet.GetString flags "state" })]) ∧
    (∀ (registered inherited : FlagSet) (args : List (String × String)) (parsed : FlagSet),
      FlagSet.ParseFlags (installationDBMigrationsListCmd_Flags registered inherited) args =
        Except.ok parsed →
      ((∀ v, ("installation", v) ∉ args) → FlagSet.GetString parsed "installation" = "") ∧
      ((∀ v, ("state", v) ∉ args) → FlagSet.GetString parsed "state" = "") ∧
      "installation" ∉ FlagSet.missingRequired parsed ∧
      "state" ∉ FlagSet.missingRequired parsed) ∧
    (∀ (registered inherited : FlagSet) (args : List (String × String)) (parsed : FlagSet),
      FlagSet.ParseFlags
        (FlagSet.InitDefaultHelpFlag
          (installationDBMigrationsListCmd_Flags registered inherited)) args =
        Except.ok parsed →
      ((∀ v, ("installation", v) ∉ args) → FlagSet.GetString parsed "installation" = "") ∧
      ((∀ v, ("state", v) ∉ args) → FlagSet.GetString parsed "state" = "") ∧
      "installation" ∉ FlagSet.missingRequired parsed ∧
      "state" ∉ FlagSet.missingRequired parsed) := by
  refine ⟨?_, ?_, ?_⟩
  · intro flags
    simp only [installationDBMigrationsListCmd_RunE]
    rcases hc : (env.NewClient (FlagSet.GetString flags "server")).GetInstallationDBMigrationOperations
      (listRequestOf env flags) with ⟨ops, _ | e⟩
    · rcases ht : env.tableOutputEnabled flags with ⟨_ | _, cols⟩
      · cases hp : env.printJSON (Payload.operations ops) <;>
          simp [clientCalls, listRequestOf, hp]
      · by_cases hl : cols.length > 0
        · rcases hd : env.prepareTableData cols ops with ⟨keys, vals, _ | e⟩ <;>
            simp [clientCalls, listRequestOf, hl, hd]
        · rcases hd : defaultDBMigrationOperationTableData env.timeFormat ops with
            _ | ⟨keys, vals⟩ <;>
            simp [clientCalls, listRequestOf, hl, hd]
    · simp [clientCalls, listRequestOf]
  · intro registered inherited args parsed hp
    obtain ⟨rest, hshape, hnames⟩ := listFlags_shape registered inherited
    exact list_filters_optional _ rest hshape hnames args parsed hp
  · intro registered inherited args parsed hp
    obtain ⟨rest, hshape, hnames⟩ := listFlags_help_shape registered inherited
    exact list_filters_optional _ rest hshape hnames args parsed hp

/-- Witness of C7: the list command run with an empty command line sends both
filters as the empty string. -/
theorem list_sends_filters_witness :
    FlagSet.ParseFlags (installationDBMigrationsListCmd_Flags [] sampleInherited) [] =
      Except.ok (installationDBMigrationsListCmd_Flags [] sampleInherited) ∧
    FlagSet.GetString (installationDBMigrationsListCmd_Flags [] sampleInherited)
      "installation" = "" ∧
    clientCalls (installationDBMigrationsListCmd_RunE sampleEnv
        (installationDBMigrationsListCmd_Flags [] sampleInherited)).trace =
      [("http://localhost:8075",
        ClientCall.GetInstallationDBMigrationOperations
          { Paging := { Page := 0, PerPage := 100 }, InstallationID := "", State := "" })] :=
  ⟨rfl,
   ((list_sends_filters sampleEnv).2.1 [] sampleInherited []
     (installationDBMigrationsListCmd_Flags [] sampleInherited) rfl).1
       (fun _ h => by cases h),
   (list_sends_filters sampleEnv).1 (installationDBMigrationsListCmd_Flags [] sampleInherited)⟩

/-! ## Error handling of the five commands -/

/-- C3 (as stated, refuted): the list command run with `--custom-columns=BOGUS`. The
client call succeeds and `printJSON` never fails, yet the command returns an
error: the preparation of the custom-column table failed, and the error returned
wraps that failure. The only effect is the client call; nothing was printed. -/
theorem list_error_without_print_failure :
    FlagSet.ParseFlags
      (FlagSet.InitDefaultHelpFlag
        (installationDBMigrationsListCmd_Flags sampleRegistered sampleInherited))
      [("custom-columns", "BOGUS")] = Except.ok sampleCustomColumnFlags ∧
    ((sampleEnv.NewClient
        (FlagSet.GetString sampleCustomColumnFlags "server")).GetInstallationDBMigrationOperations
      (listRequestOf sampleEnv sampleCustomColumnFlags)).2 = none ∧
    (∀ p, sampleEnv.printJSON p = none) ∧
    (installationDBMigrationsListCmd_RunE sampleEnv sampleCustomColumnFlags).trace =
      [Effect.call "http://localhost:8075"
        (ClientCall.GetInstallationDBMigrationOperations
          { Paging := { Page := 0, PerPage := 100 }, InstallationID := "", State := "" })] ∧
    ∃ e0, (installationDBMigrationsListCmd_RunE sampleEnv sampleCustomColumnFlags).err =
      some (GoError.wrap e0 "failed to prepare table output") :=
  ⟨rfl, rfl, fun _ => rfl, by decide, GoError.new "invalid custom column", by decide⟩

/-- C3 (amended): for request (without dry-run), list, get, commit and rollback, if
the client call returns an error the command makes no print call and returns that
error wrapped with the command's message. If the client call succeeds, request,
get, commit and rollback print the operation and return exactly the result of
`printJSON` (an error only if printing fails). The list command, after a
successful call: with table output disabled prints the operations and returns the
result of `printJSON`; with table output and custom columns, returns the error of
`prepareTableData` wrapped and prints nothing when the preparation fails, and
prints the prepared table and returns nil otherwise; with table output and no
custom columns returns nil. So list returns an error only if `printJSON` fails or
`prepareTableData` fails. -/
theorem commands_wrap_client_errors (env : Env) (flags : FlagSet) :
    (FlagSet.GetBool flags "dry-run" = false →
      ∀ op,
        (∀ e, (env.NewClient (FlagSet.GetString flags "server")).MigrateInstallationDatabase
              (migrationRequestOf flags) = (op, some e) →
          installationDBMigrationRequestCmd_RunE env flags =
            { trace := [Effect.call (FlagSet.GetString flags "server")
                (ClientCall.MigrateInstallationDatabase (migrationRequestOf flags))]
              err := some (GoError.wrap e
                "failed to request installation database migration") } ∧
          printCalls (installationDBMigrationRequestCmd_RunE env flags).trace = []) ∧
        ((env.NewClient (FlagSet.GetString flags "server")).MigrateInstallationDatabase
              (migrationRequestOf flags) = (op, none) →
          installationDBMigrationRequestCmd_RunE env flags =
            { trace := [Effect.call (FlagSet.GetString flags "server")
                (ClientCall.MigrateInstallationDatabase (migrationRequestOf flags)),
                Effect.printJSON (Payload.operation op)]
              err := env.printJSON (Payload.operation op) })) ∧
    (∀ op,
      (∀ e, (env.NewClient (FlagSet.GetString flags "server")).GetInstallationDBMigrationOperation
            (FlagSet.GetString flags "db-migration") = (op, some e) →
        installationDBMigrationGetCmd_RunE env flags =
          { trace := [Effect.call (FlagSet.GetString flags "server")
              (ClientCall.GetInstallationDBMigrationOperation
                (FlagSet.GetString flags "db-migration"))]
            err := some (GoError.wrap e "failed to get installation database migration") } ∧
        printCalls (installationDBMigrationGetCmd_RunE env flags).trace = []) ∧
      ((env.NewClient (FlagSet.GetString flags "server")).GetInstallationDBMigrationOperation
            (FlagSet.GetString flags "db-migration") = (op, none) →
        installationDBMigrationGetCmd_RunE env flags =
          { trace := [Effect.call (FlagSet.GetString flags "server")
              (ClientCall.GetInstallationDBMigrationOperation
                (FlagSet.GetString flags "db-migration")),
              Effect.printJSON (Payload.operation op)]
            err := env.printJSON (Payload.operation op) })) ∧
    (∀ op,
      (∀ e, (env.NewClient (FlagSet.GetString flags "server")).CommitInstallationDBMigration
            (FlagSet.GetString flags "db-migration") = (op, some e) →
        installationDBMigrationCommitCmd_RunE env flags =
          { trace := [Effect.call (FlagSet.GetString flags "server")
              (ClientCall.CommitInstallationDBMigration
                (FlagSet.GetString flags "db-migration"))]
            err := some (GoError.wrap e
              "failed to commit installation database migration") } ∧
        printCalls (installationDBMigrationCommitCmd_RunE env flags).trace = []) ∧
      ((env.NewClient (FlagSet.GetString flags "server")).CommitInstallationDBMigration
            (FlagSet.GetString flags "db-migration") = (op, none) →
        installationDBMigrationCommitCmd_RunE env flags =
          { trace := [Effect.call (FlagSet.GetString flags "server")
              (ClientCall.CommitInstallationDBMigration
                (FlagSet.GetString flags "db-migration")),
              Effect.printJSON (Payload.operation op)]
            err := env.printJSON (Payload.operation op) })) ∧
    (∀ op,
      (∀ e, (env.NewClient (FlagSet.GetString flags "server")).RollbackInstallationDBMigration
            (FlagSet.GetString flags "db-migration") = (op, some e) →
        installationDBMigrationRollbackCmd_RunE env flags =
          { trace := [Effect.call (FlagSet.GetString flags "server")
              (ClientCall.RollbackInstallationDBMigration
                (FlagSet.GetString flags "db-migration"))]
            err := some (GoError.wrap e
              "failed to trigger rollback of installation database migration") } ∧
        printCalls (installationDBMigrationRollbackCmd_RunE env flags).trace = []) ∧
      ((env.NewClient (FlagSet.GetString flags "server")).RollbackInstallationDBMigration
            (FlagSet.GetString flags "db-migration") = (op, none) →
        installationDBMigrationRollbackCmd_RunE env flags =
          { trace := [Effect.call (FlagSet.GetString flags "server")
              (ClientCall.RollbackInstallationDBMigration
                (FlagSet.GetString flags "db-migration")),
              Effect.printJSON (Payload.operation op)]
            err := env.printJSON (Payload.operation op) })) ∧
    (∀ ops,
      (∀ e, (env.NewClient (FlagSet.GetString flags "server")).GetInstallationDBMigrationOperations
            (listRequestOf env flags) = (ops, some e) →
        installationDBMigrationsListCmd_RunE env flags =
          { trace := [Effect.call (FlagSet.GetString flags "server")
              (ClientCall.GetInstallationDBMigrationOperations (listRequestOf env flags))]
            err := some (GoError.wrap e
              "failed to list installation database migration operations") } ∧
        printCalls (installationDBMigrationsListCmd_RunE env flags).trace = []) ∧
      ((env.NewClient (FlagSet.GetString flags "server")).GetInstallationDBMigrationOperations
            (listRequestOf env flags) = (ops, none) →
        (∀ cols, env.tableOutputEnabled flags = (false, cols) →
          installationDBMigrationsListCmd_RunE env flags =
            { trace := [Effect.call (FlagSet.GetString flags "server")
                (ClientCall.GetInstallationDBMigrationOperations (listRequestOf env flags)),
                Effect.printJSON (Payload.operations ops)]
              err := env.printJSON (Payload.operations ops) }) ∧
        (∀ cols keys vals e0, env.tableOutputEnabled flags = (true, cols) →
          cols.length > 0 → env.prepareTableData cols ops = (keys, vals, some e0) →
          installationDBMigrationsListCmd_RunE env flags =
            { trace := [Effect.call (FlagSet.GetString flags "server")
                (ClientCall.GetInstallationDBMigrationOperations (listRequestOf env flags))]
              err := some (GoError.wrap e0 "failed to prepare table output") } ∧
          printCalls (installationDBMigrationsListCmd_RunE env flags).trace = []) ∧
        (∀ cols keys vals, env.tableOutputEnabled flags = (true, cols) →
          cols.length > 0 → env.prepareTableData cols ops = (keys, vals, none) →
          installationDBMigrationsListCmd_RunE env flags =
            { trace := [Effect.call (FlagSet.GetString flags "server")
                (ClientCall.GetInstallationDBMigrationOperations (listRequestOf env flags)),
                Effect.printTable keys vals]
              err := none }) ∧
        (∀ cols, env.tableOutputEnabled flags = (true, cols) → cols.length = 0 →
          (installationDBMigrationsListCmd_RunE env flags).err = none) ∧
        (∀ e1, (installationDBMigrationsListCmd_RunE env flags).err = some e1 →
          ((env.tableOutputEnabled flags).1 = false ∧
            env.printJSON (Payload.operations ops) = some e1) ∨
          ((env.tableOutputEnabled flags).1 = true ∧
            (env.tableOutputEnabled flags).2.length > 0 ∧
            printCalls (installationDBMigrationsListCmd_RunE env flags).trace = [] ∧
            ∃ e0, (env.prepareTableData (env.tableOutputEnabled flags).2 ops).2.2 = some e0 ∧
              e1 = GoError.wrap e0 "failed to prepare table output")))) := by
  refine ⟨?_, ?_, ?_, ?_, ?_⟩
  · intro hdry op
    constructor
    · intro e hc
      simp [installationDBMigrationRequestCmd_RunE, hdry, hc, printCalls]
    · intro hc
      simp only [installationDBMigrationRequestCmd_RunE, hdry, hc]
      cases hp : env.printJSON (Payload.operation op) <;> simp [hp]
  · intro op
    constructor
    · intro e hc
      simp [installationDBMigrationGetCmd_RunE, hc, printCalls]
    · intro hc
      simp only [installationDBMigrationGetCmd_RunE, hc]
      cases hp : env.printJSON (Payload.operation op) <;> simp [hp]
  · intro op
    constructor
    · intro e hc
      simp [installationDBMigrationCommitCmd_RunE, hc, printCalls]
    · intro hc
      simp only [installationDBMigrationCommitCmd_RunE, hc]
      cases hp : env.printJSON (Payload.operation op) <;> simp [hp]
  · intro op
    constructor
    · intro e hc
      simp [installationDBMigrationRollbackCmd_RunE, hc, printCalls]
    · intro hc
      simp only [installationDBMigrationRollbackCmd_RunE, hc]
      cases hp : env.printJSON (Payload.operation op) <;> simp [hp]
  · intro ops
    constructor
    · intro e hc
      simp [installationDBMigrationsListCmd_RunE, hc, printCalls]
    · intro hc
      refine ⟨?_, ?_, ?_, ?_, ?_⟩
      · intro cols ht
        simp only [installationDBMigrationsListCmd_RunE, hc, ht]
        cases hp : env.printJSON (Payload.operations ops) <;> simp [hp]
      · intro cols keys vals e0 ht hl hd
        simp [installationDBMigrationsListCmd_RunE, hc, ht, hl, hd, printCalls]
      · intro cols keys vals ht hl hd
        simp [installationDBMigrationsListCmd_RunE, hc, ht, hl, hd]
      · intro cols ht hl
        simp only [installationDBMigrationsListCmd_RunE, hc, ht, hl]
        cases hd : defaultDBMigrationOperationTableData env.timeFormat ops <;> simp [hd]
      · intro e1
        simp only [installationDBMigrationsListCmd_RunE, hc]
        rcases ht : env.tableOutputEnabled flags with ⟨_ | _, cols⟩
        · cases hp : env.printJSON (Payload.operations ops) <;> simp [hp]
        · by_cases hl : cols.length > 0
          · rcases hd : env.prepareTableData cols ops with ⟨keys, vals, _ | e⟩
            · simp [hl, hd]
            · simp only [hl, hd, if_true]
              intro he
              refine Or.inr ⟨trivial, trivial, by simp [printCalls], e, rfl, ?_⟩
              simpa using he.symm
          · simp only [hl, if_false]
            cases hd : defaultDBMigrationOperationTableData env.timeFormat ops <;> simp [hd]

/-- Witness of C3 (amended): a rollback the server rejects. The rollback command
returns the client's error wrapped and prints nothing. -/
theorem commands_wrap_client_errors_witness :
    FlagSet.ParseFlags
      (FlagSet.InitDefaultHelpFlag (installationDBMigrationByIDCmd_Flags sampleInherited))
      [("db-migration", "op-1")] = Except.ok sampleRollbackFlags ∧
    (sampleRejectingEnv.NewClient
        (FlagSet.GetString sampleRollbackFlags "server")).RollbackInstallationDBMigration
      (FlagSet.GetString sampleRollbackFlags "db-migration") =
        (none, some (GoError.new "failed with status code 400")) ∧
    installationDBMigrationRollbackCmd_RunE sampleRejectingEnv sampleRollbackFlags =
      { trace := [Effect.call "http://localhost:8075"
          (ClientCall.RollbackInstallationDBMigration "op-1")]
        err := some (GoError.wrap (GoError.new "failed with status code 400")
          "failed to trigger rollback of installation database migration") } ∧
    printCalls (installationDBMigrationRollbackCmd_RunE sampleRejectingEnv
      sampleRollbackFlags).trace = [] :=
  ⟨rfl, rfl,
   ((commands_wrap_client_errors sampleRejectingEnv sampleRollbackFlags).2.2.2.1 none).1
     (GoError.new "failed with status code 400") rfl⟩

/-! ## The state machine of the specification -/

/-- C8: in the state machine of the specification a rollback request is accepted only
in state `migrated`. For every operation in any other state (terminal or not) the
request fails with `InvalidStateForCancel` and the stored operation is unchanged;
from `migrated` it is accepted and leads to `rolling-back`. In particular, once a
commit has been accepted in `migrated` and finalized, the operation is `committed`
and a later rollback request is rejected, leaving it `committed`. -/
theorem rollback_only_from_migrated (op : MigrationOperation) :
    (op.state ≠ MigrationState.migrated →
      RollbackOperation op = (op, some MigrationError.InvalidStateForCancel)) ∧
    (op.state = MigrationState.migrated →
      (RollbackOperation op).2 = none ∧
      (RollbackOperation op).1.state = MigrationState.rollingBack) ∧
    (op.state = MigrationState.migrated →
      (CommitOperation op).2 = none ∧
      (CommitOperation op).1.state = MigrationState.committing ∧
      (MigrationOperation.apply (CommitOperation op).1
        MigrationEvent.finalizeSucceeded).1.state = MigrationState.committed ∧
      RollbackOperation
          (MigrationOperation.apply (CommitOperation op).1
            MigrationEvent.finalizeSucceeded).1 =
        ((MigrationOperation.apply (CommitOperation op).1
            MigrationEvent.finalizeSucceeded).1,
          some MigrationError.InvalidStateForCancel)) := by
  obtain ⟨id, inst, state, version, reason⟩ := op
  refine ⟨?_, ?_, ?_⟩
  · intro h
    cases state <;>
      simp_all [RollbackOperation, MigrationOperation.apply, MigrationState.transition]
  · intro h
    simp only at h
    subst h
    simp [RollbackOperation, MigrationOperation.apply, MigrationState.transition]
  · intro h
    simp only at h
    subst h
    simp [RollbackOperation, CommitOperation, MigrationOperation.apply,
      MigrationState.transition]

/-- Witness of C8: a committed operation rejects rollback, and a migrated operation
that is committed and finalized rejects rollback as well. -/
theorem rollback_only_from_migrated_witness :
    sampleCommittedOperation.state ≠ MigrationState.migrated ∧
    RollbackOperation sampleCommittedOperation =
      (sampleCommittedOperation, some MigrationError.InvalidStateForCancel) ∧
    sampleMigratedOperation.state = MigrationState.migrated ∧
    RollbackOperation
        (MigrationOperation.apply (CommitOperation sampleMigratedOperation).1
          MigrationEvent.finalizeSucceeded).1 =
      ((MigrationOperation.apply (CommitOperation sampleMigratedOperation).1
          MigrationEvent.finalizeSucceeded).1,
        some MigrationError.InvalidStateForCancel) :=
  ⟨by decide,
   (rollback_only_from_migrated sampleCommittedOperation).1 (by decide),
   rfl,
   ((rollback_only_from_migrated sampleMigratedOperation).2.2 rfl).2.2.2⟩

end MattermostCloud
